import Mathlib

/-!
# Quick tip calculator (`src/app.js`)

A shallow embedding of the calculator's state, validation, calculation,
persistence and event handlers, and the properties proved about them.

Modelling conventions.

* JavaScript numbers are IEEE-754 binary64 values (`JSNum`); the arithmetic
  below rounds to nearest, ties to even, as ECMAScript prescribes.
* JavaScript strings are sequences of UTF-16 code units (`JSString`).
* The page is a record (`Dom`) of the elements `app.js` looks up once at load
  time; the model takes them to exist. Putting a value into the `value` of a
  field turns it into text, which throws a TypeError for an object that cannot
  be turned into text.
* The text `Intl.NumberFormat` renders is a parameter (`NumberFormat`) and is
  not interpreted; its constructor throws a RangeError on a currency code that
  is not well formed.
* Code that can throw returns an `Outcome`: what it leaves behind and the
  exception, if any. An exception in a listener ends that listener only.
* The text kept in `localStorage` is modelled by what `JSON.parse` makes of it
  (`Stored`); `localStorage` is taken to be available and to accept writes.
* The calculator and the event handlers are modelled on states whose five
  properties hold values of the declared types (`State`). `loadState` alone can
  produce another object, so it works on property lists (`JSObject`).
* `init`, the install prompt and the service worker registration are not
  modelled.
-/

/-! ## Numbers -/

/-- A JavaScript number. `fin neg m e` is the finite value
`(-1)^neg * m * 2^e`; the canonical form has `m` odd, or `m = 0` and `e = 0`
for the two zeros, and the arithmetic below returns canonical binary64 values.
The type has more finite members than binary64 has; what is proved for every
`JSNum` holds for the binary64 values among them. -/
inductive JSNum where
  | nan
  | inf (neg : Bool)
  | fin (neg : Bool) (m : Nat) (e : Int)
  deriving DecidableEq, Repr

namespace JSNum

/-- Floor of the binary logarithm, by halving (`ilog2 n n` for `n > 0`). -/
def ilog2 : Nat → Nat → Nat
  | 0, _ => 0
  | fuel + 1, n => if n < 2 then 0 else ilog2 fuel (n / 2) + 1

/-- Numerator and denominator of `(n / d) / 2^e`. -/
def scalePow (n d : Nat) (e : Int) : Nat × Nat :=
  if 0 ≤ e then (n, d * 2 ^ e.toNat) else (n * 2 ^ (-e).toNat, d)

/-- Floor of the binary logarithm of the positive rational `n / d`. -/
def floorLog2 (n d : Nat) : Int :=
  let k : Int := (ilog2 n n : Int) - (ilog2 d d : Int)
  let p := scalePow n d k
  if p.2 ≤ p.1 then k else k - 1

/-- The integer nearest to `a / b`, ties going to the even one. -/
def roundHalfEven (a b : Nat) : Nat :=
  let q := a / b
  let r := a % b
  if 2 * r < b then q
  else if b < 2 * r then q + 1
  else if q % 2 = 0 then q else q + 1

/-- Moves factors of two from the significand to the exponent. -/
def stripTwos : Nat → Nat → Int → Nat × Int
  | 0, m, e => (m, e)
  | fuel + 1, m, e => if m % 2 = 0 then stripTwos fuel (m / 2) (e + 1) else (m, e)

/-- The binary64 value nearest to `(-1)^neg * (n / d) * 2^e0` (ties to even):
a 53-bit significand, exponents from `-1074` (subnormals) and overflow to an
infinity from `2^1024` on. -/
def roundScaled (neg : Bool) (n d : Nat) (e0 : Int) : JSNum :=
  let e : Int := max (floorLog2 n d + e0 - 52) (-1074)
  let p := scalePow n d (e - e0)
  let m := roundHalfEven p.1 p.2
  if m = 0 then fin neg 0 0
  else if 971 ≤ e ∧ 2 ^ 53 ≤ m * 2 ^ (e - 971).toNat then inf neg
  else
    let c := stripTwos 64 m e
    fin neg c.1 c.2

/-- The number denoted by an integer literal of the source. -/
def ofInt (i : Int) : JSNum := roundScaled (decide (i < 0)) i.natAbs 1 0

/-- Two finite magnitudes brought to their common (smaller) exponent. -/
def align (m : Nat) (e : Int) (k : Nat) (f : Int) : Nat × Nat :=
  (m * 2 ^ (e - min e f).toNat, k * 2 ^ (f - min e f).toNat)

/-- A magnitude with its sign. -/
def signed (neg : Bool) (m : Nat) : Int := if neg then -(m : Int) else (m : Int)

/-- The operator `+` on numbers (Number::add). -/
def add : JSNum → JSNum → JSNum
  | nan, _ => nan
  | _, nan => nan
  | inf s, inf t => if s = t then inf s else nan
  | inf s, fin _ _ _ => inf s
  | fin _ _ _, inf t => inf t
  | fin s m e, fin t k f =>
      let p := align m e k f
      let r : Int := signed s p.1 + signed t p.2
      if r = 0 then fin (s && t) 0 0
      else roundScaled (decide (r < 0)) r.natAbs 1 (min e f)

/-- The operator `*` on numbers (Number::multiply). -/
def mul : JSNum → JSNum → JSNum
  | nan, _ => nan
  | _, nan => nan
  | inf s, inf t => inf (xor s t)
  | inf s, fin t m _ => if m = 0 then nan else inf (xor s t)
  | fin s m _, inf t => if m = 0 then nan else inf (xor s t)
  | fin s m e, fin t k f =>
      if m * k = 0 then fin (xor s t) 0 0 else roundScaled (xor s t) (m * k) 1 (e + f)

/-- The operator `/` on numbers (Number::divide). -/
def div : JSNum → JSNum → JSNum
  | nan, _ => nan
  | _, nan => nan
  | inf _, inf _ => nan
  | inf s, fin t _ _ => inf (xor s t)
  | fin s _ _, inf t => fin (xor s t) 0 0
  | fin s m e, fin t k f =>
      if k = 0 then (if m = 0 then nan else inf (xor s t))
      else if m = 0 then fin (xor s t) 0 0
      else roundScaled (xor s t) m k (e - f)

/-- Number::lessThan: `none` stands for the undefined result that a NaN
operand gives. -/
def lessThan : JSNum → JSNum → Option Bool
  | nan, _ => none
  | _, nan => none
  | inf s, inf t => some (s && !t)
  | inf s, fin _ _ _ => some s
  | fin _ _ _, inf t => some (!t)
  | fin s m e, fin t k f =>
      let p := align m e k f
      some (decide (signed s p.1 < signed t p.2))

/-- The operator `<`. -/
def lt (x y : JSNum) : Bool := lessThan x y == some true

/-- The operator `>`. -/
def gt (x y : JSNum) : Bool := lessThan y x == some true

/-- The operator `<=`. -/
def le (x y : JSNum) : Bool := lessThan y x == some false

/-- The operator `>=`. -/
def ge (x y : JSNum) : Bool := lessThan x y == some false

/-- The operator `===` on numbers (Number::equal): NaN equals nothing and
the two zeros equal each other. -/
def strictEq : JSNum → JSNum → Bool
  | nan, _ => false
  | _, nan => false
  | inf s, inf t => s == t
  | inf _, fin _ _ _ => false
  | fin _ _ _, inf _ => false
  | fin s m e, fin t k f =>
      let p := align m e k f
      decide (signed s p.1 = signed t p.2)

/-- The global `isNaN` on a number. -/
def isNaN : JSNum → Bool
  | nan => true
  | _ => false

/-- Whether a number is finite (`Number.isFinite`). -/
def isFinite : JSNum → Bool
  | fin _ _ _ => true
  | _ => false

/-- Whether a number is one of the two zeros. -/
def isZero : JSNum → Bool
  | fin _ m _ => m == 0
  | _ => false

end JSNum

/-! ## Strings and other values -/

/-- A UTF-16 code unit. -/
abbrev CodeUnit := Fin 65536

/-- A JavaScript string: a sequence of UTF-16 code units. -/
abbrev JSString := List CodeUnit

/-- The code units of one character. -/
def utf16 (c : Char) : JSString :=
  if c.toNat < 65536 then [Fin.ofNat c.toNat]
  else [Fin.ofNat (55296 + (c.toNat - 65536) / 1024), Fin.ofNat (56320 + (c.toNat - 65536) % 1024)]

/-- A string literal of the source. -/
def jsStr (s : String) : JSString := s.toList.flatMap utf16

/-- The decimal text of an array index. -/
def indexKey (i : Nat) : JSString := (Nat.toDigits 10 i).flatMap utf16

/-- White space and line terminators, which `parseFloat` skips at the start
of its argument (TrimString). -/
def isStrWhiteSpace (c : CodeUnit) : Bool :=
  c.val ∈ [9, 10, 11, 12, 13, 32, 160, 5760, 8232, 8233, 8239, 8287, 12288, 65279]
    || (8192 ≤ c.val && c.val ≤ 8202)

/-- Drops leading white space. -/
def trimStart : JSString → JSString
  | [] => []
  | c :: cs => if isStrWhiteSpace c then trimStart cs else c :: cs

/-- Whether `p` is an initial segment of `s`. -/
def startsWith : JSString → JSString → Bool
  | [], _ => true
  | _ :: _, [] => false
  | a :: p, b :: s => a == b && startsWith p s

/-- The leading decimal digits of a string (their values) and what follows. -/
def takeDigits : JSString → List Nat × JSString
  | [] => ([], [])
  | c :: cs =>
      if 48 ≤ c.val ∧ c.val ≤ 57 then ((c.val - 48) :: (takeDigits cs).1, (takeDigits cs).2)
      else ([], c :: cs)

/-- The natural number written by a list of decimal digits. -/
def digitsVal (ds : List Nat) : Nat := ds.foldl (fun a d => 10 * a + d) 0

/-- An optional leading sign: whether it is a minus, and the rest. -/
def takeSign : JSString → Bool × JSString
  | [] => (false, [])
  | c :: cs => if c.val = 45 then (true, cs) else if c.val = 43 then (false, cs) else (false, c :: cs)

/-- The value of an exponent part (`e` or `E`, an optional sign, digits) at
the start of the string, and `0` when there is none. -/
def exponentPart : JSString → Int
  | [] => 0
  | c :: cs =>
      if c.val = 101 ∨ c.val = 69 then
        let sg := takeSign cs
        let ds := (takeDigits sg.2).1
        if ds = [] then 0 else if sg.1 then -(digitsVal ds : Int) else (digitsVal ds : Int)
      else 0

/-- The global `parseFloat` on a string: leading white space is skipped and
the longest prefix of the rest that is a decimal literal (StrDecimalLiteral:
a sign, then `Infinity` or digits with an optional fraction and exponent) is
read and rounded to a number; the result is NaN when there is no such
prefix. -/
def parseFloat (s : JSString) : JSNum :=
  let sg := takeSign (trimStart s)
  if startsWith (jsStr "Infinity") sg.2 then JSNum.inf sg.1
  else
    let ip := takeDigits sg.2
    let fp : List Nat × JSString :=
      match ip.2 with
      | [] => ([], [])
      | c :: cs => if c.val = 46 then takeDigits cs else ([], c :: cs)
    if ip.1 = [] ∧ fp.1 = [] then JSNum.nan
    else
      let n := digitsVal (ip.1 ++ fp.1)
      let ex : Int := exponentPart fp.2 - (fp.1.length : Int)
      if 0 ≤ ex then JSNum.roundScaled sg.1 (n * 10 ^ ex.toNat) 1 0
      else JSNum.roundScaled sg.1 n (10 ^ (-ex).toNat) 0

/-- A JavaScript value, as far as `JSON.parse` can produce one (and
`undefined`, the value of a property that is not there). -/
inductive JSVal where
  | undefined
  | null
  | bool (b : Bool)
  | num (n : JSNum)
  | str (s : JSString)
  | arr (items : List JSVal)
  | obj (props : List (JSString × JSVal))

namespace JSVal

/-- ToBoolean. -/
def truthy : JSVal → Bool
  | undefined => false
  | null => false
  | bool b => b
  | num n => !(n.isNaN || n.isZero)
  | str s => !s.isEmpty
  | arr _ => true
  | obj _ => true

/-- The operator `||`. -/
def or (a b : JSVal) : JSVal := if a.truthy then a else b

/-- Array elements with their indices as keys. -/
def indexed : Nat → List JSVal → List (JSString × JSVal)
  | _, [] => []
  | i, v :: vs => (indexKey i, v) :: indexed (i + 1) vs

/-- The own enumerable properties that object spread copies from a value:
those of an object, the indexed elements of an array, the indexed code units
of a string, and nothing for the other primitives. -/
def ownProps : JSVal → List (JSString × JSVal)
  | obj props => props
  | arr items => indexed 0 items
  | str s => indexed 0 (s.map (fun c => str [c]))
  | _ => []

end JSVal

mutual
/-- Whether ToString throws on a value that `JSON.parse` produced. It does
for an object with an own property `toString`, which is never callable and
hides the inherited one while the inherited `valueOf` returns the object
itself, and for an array with such an element, since `join` turns the elements
into text (`null` excepted). -/
def JSVal.toStringThrows : JSVal → Bool
  | JSVal.arr items => JSVal.anyToStringThrows items
  | JSVal.obj props => props.any (fun p => p.1 == jsStr "toString")
  | _ => false
/-- Whether ToString throws on one of the values. -/
def JSVal.anyToStringThrows : List JSVal → Bool
  | [] => false
  | v :: vs => JSVal.toStringThrows v || JSVal.anyToStringThrows vs
end

/-- A plain object: its properties, each key once. The list is read
through `get` and `has`; the order in which JavaScript enumerates index-like
keys is not modelled. -/
abbrev JSObject := List (JSString × JSVal)

namespace JSObject

/-- Property read; `undefined` when the property is not there. -/
def get : JSObject → JSString → JSVal
  | [], _ => JSVal.undefined
  | (k, v) :: rest, key => if k = key then v else get rest key

/-- Whether the object has the property. -/
def has : JSObject → JSString → Bool
  | [], _ => false
  | (k, _) :: rest, key => k == key || has rest key

/-- Property write: an existing property takes the new value in place and
a new one is added at the end. -/
def set : JSObject → JSString → JSVal → JSObject
  | [], key, v => [(key, v)]
  | (k, w) :: rest, key, v => if k = key then (k, v) :: rest else (k, w) :: set rest key v

/-- Object spread of `src` over `target`: every property of `src` is
written in turn. -/
def assign (target : JSObject) (src : List (JSString × JSVal)) : JSObject :=
  src.foldl (fun o p => set o p.1 p.2) target

end JSObject

/-! ## State -/

/-- The global `state` when its five properties hold a number, a number, a
number, a boolean and a string. -/
structure State where
  bill : JSNum
  tipPercent : JSNum
  people : JSNum
  dark : Bool
  currency : JSString
  deriving DecidableEq

/-- The initial value of `state` (lines 2-8). -/
def defaultState : State :=
  ⟨JSNum.ofInt 0, JSNum.ofInt 0, JSNum.ofInt 1, false, jsStr "AUD"⟩

/-- The object a typed state is. -/
def State.toObject (s : State) : JSObject :=
  [(jsStr "bill", JSVal.num s.bill), (jsStr "tipPercent", JSVal.num s.tipPercent),
   (jsStr "people", JSVal.num s.people), (jsStr "dark", JSVal.bool s.dark),
   (jsStr "currency", JSVal.str s.currency)]

/-- What comes back from JSON text for a number written by `JSON.stringify`:
NaN and the infinities are written as `null`, a zero is written as `0`, and any
other finite number is written so that reading gives it again. -/
def jsonNum : JSNum → JSVal
  | JSNum.nan => JSVal.null
  | JSNum.inf _ => JSVal.null
  | JSNum.fin neg m e => if m = 0 then JSVal.num (JSNum.fin false 0 0) else JSVal.num (JSNum.fin neg m e)

/-- What `localStorage.getItem('tipCalculatorState')` returns, up to what
`JSON.parse` makes of it. -/
inductive Stored where
  | missing
  | empty
  | malformed
  | json (v : JSVal)

/-- `JSON.stringify(state)` for a typed state: text that `JSON.parse` reads
as an object with the five properties, booleans and strings as they are and
numbers as `jsonNum` gives them. -/
def stringify (s : State) : Stored :=
  Stored.json (JSVal.obj
    [(jsStr "bill", jsonNum s.bill), (jsStr "tipPercent", jsonNum s.tipPercent),
     (jsStr "people", jsonNum s.people), (jsStr "dark", JSVal.bool s.dark),
     (jsStr "currency", JSVal.str s.currency)])

/-- An exception thrown by the runtime. -/
inductive JSError where
  | syntaxError
  | rangeError
  | typeError
  deriving DecidableEq

/-- What a run of some code leaves: the values it worked on, as they are
when it ends, and the exception that ended it early, if one was thrown. -/
structure Outcome (α : Type) where
  result : α
  thrown : Option JSError

/-- Sequencing: what follows runs only when nothing has been thrown. -/
def Outcome.andThen {α : Type} (o : Outcome α) (f : α → Outcome α) : Outcome α :=
  match o.thrown with
  | none => f o.result
  | some _ => o

/-! ## Page -/

/-- An error line: its text and whether its class list holds `hidden`. -/
structure ErrorEl where
  textContent : JSString
  hidden : Bool
  deriving DecidableEq

/-- A preset button (`.tip-btn`): its `data-tip` attribute when it has one,
whether its class list holds `active`, and its `aria-pressed` attribute. -/
structure TipBtn where
  dataTip : Option JSString
  active : Bool
  ariaPressed : Option JSString
  deriving DecidableEq

/-- The text `parseFloat` sees for `btn.dataset.tip`; a missing attribute
reads as `undefined`. -/
def TipBtn.tipText (b : TipBtn) : JSString := b.dataTip.getD (jsStr "undefined")

/-- The elements of line 11-27 that the modelled code touches. The `value`
of an input is held as the value last put there, before the page turns it into
text. -/
structure Dom where
  billAmount : JSVal
  customTip : JSVal
  numPeople : JSVal
  currencySelect : JSVal
  tipAmount : JSString
  totalAmount : JSString
  perPerson : JSString
  tipButtons : List TipBtn
  billError : ErrorEl
  peopleError : ErrorEl
  darkClass : Bool

/-- The program's variables and surroundings: `state`, the page and the
stored item. -/
structure World where
  state : State
  dom : Dom
  storage : Stored

/-- The text that `Intl.NumberFormat` in currency style renders: locale,
currency code and amount to text. -/
abbrev NumberFormat := JSString → JSString → JSNum → JSString

/-! ## The functions of `app.js` -/

/-- The function `toNumber` (lines 30-33). -/
def toNumber (str : JSString) : JSNum :=
  let num := parseFloat str
  if num.isNaN then JSNum.ofInt 0 else num

/-- Whether a currency code is well formed (IsWellFormedCurrencyCode):
three code units, each an ASCII letter. -/
def isWellFormedCurrencyCode (code : JSString) : Bool :=
  code.length == 3 &&
    code.all (fun u => (65 ≤ u.val && u.val ≤ 90) || (97 ≤ u.val && u.val ≤ 122))

/-- The function `formatCurrency` (lines 36-41): the constructor of
`Intl.NumberFormat` throws a RangeError on a currency code that is not well
formed; otherwise the amount is rendered. -/
def formatCurrency (nf : NumberFormat) (state : State) (amount : JSNum) :
    Except JSError JSString :=
  if isWellFormedCurrencyCode state.currency then
    Except.ok (nf (jsStr "en-AU") state.currency amount)
  else Except.error JSError.rangeError

/-- One assignment to the `value` of a field in `loadState`: the value is
turned into text, which can throw, and then put into the field. -/
def setValue (v : JSVal) (put : JSVal → Dom → Dom) (r : JSObject × Dom) :
    Outcome (JSObject × Dom) :=
  if v.toStringThrows then ⟨r, some JSError.typeError⟩ else ⟨(r.1, put v r.2), none⟩

/-- The function `loadState` (lines 44-61), on the stored item, the
object `state` and the page. A missing item (`null`) and the empty text are
falsy, so nothing is done; `JSON.parse` throws on text it rejects, before
`state` is assigned; otherwise the parsed value is spread over a copy of
`state`, and then the four fields, one after the other, and the dark class
follow the new state. -/
def loadState (saved : Stored) (state : JSObject) (dom : Dom) : Outcome (JSObject × Dom) :=
  match saved with
  | Stored.missing => ⟨(state, dom), none⟩
  | Stored.empty => ⟨(state, dom), none⟩
  | Stored.malformed => ⟨(state, dom), some JSError.syntaxError⟩
  | Stored.json parsed =>
      let state1 := JSObject.assign (JSObject.assign [] state) parsed.ownProps
      let start : Outcome (JSObject × Dom) := ⟨(state1, dom), none⟩
      ((((start.andThen
        (setValue ((state1.get (jsStr "bill")).or (JSVal.str (jsStr "")))
          (fun v d => { d with billAmount := v }))).andThen
        (setValue ((state1.get (jsStr "tipPercent")).or (JSVal.str (jsStr "")))
          (fun v d => { d with customTip := v }))).andThen
        (setValue ((state1.get (jsStr "people")).or (JSVal.num (JSNum.ofInt 1)))
          (fun v d => { d with numPeople := v }))).andThen
        (setValue ((state1.get (jsStr "currency")).or (JSVal.str (jsStr "AUD")))
          (fun v d => { d with currencySelect := v }))).andThen
        (fun r =>
          ⟨(r.1, if (state1.get (jsStr "dark")).truthy then { r.2 with darkClass := true }
            else r.2), none⟩)

/-- The function `saveState` (lines 64-66). -/
def saveState (w : World) : World :=
  { w with storage := stringify w.state }

/-- The function `validateInputs` (lines 69-91): the returned flag and the
world with the two error lines updated. -/
def validateInputs (w : World) : Bool × World :=
  let isValid := true
  let r1 : Bool × Dom :=
    if JSNum.le w.state.bill (JSNum.ofInt 0) then
      (false, { w.dom with billError := ⟨jsStr "Bill amount must be greater than 0", false⟩ })
    else
      (isValid, { w.dom with billError := { w.dom.billError with hidden := true } })
  let r2 : Bool × Dom :=
    if JSNum.lt w.state.people (JSNum.ofInt 1) then
      (false, { r1.2 with peopleError := ⟨jsStr "Must be at least 1 person", false⟩ })
    else
      (r1.1, { r1.2 with peopleError := { r1.2.peopleError with hidden := true } })
  (r2.1, { w with dom := r2.2 })

/-- The function `updateTipButtons` (lines 94-105). -/
def updateTipButtons (w : World) : World :=
  { w with dom := { w.dom with tipButtons := w.dom.tipButtons.map (fun btn =>
      let btnTip := parseFloat btn.tipText
      if JSNum.strictEq btnTip w.state.tipPercent then
        { btn with active := true, ariaPressed := some (jsStr "true") }
      else
        { btn with active := false, ariaPressed := some (jsStr "false") }) } }

/-- One statement `element.textContent = formatCurrency(amount)` of
`calculate`: the text is put into the page unless formatting threw. -/
def setText (text : Except JSError JSString) (put : JSString → Dom → Dom) (w : World) :
    Outcome World :=
  match text with
  | Except.ok t => ⟨{ w with dom := put t w.dom }, none⟩
  | Except.error e => ⟨w, some e⟩

/-- The function `calculate` (lines 108-125). -/
def calculate (nf : NumberFormat) (w : World) : Outcome World :=
  let v := validateInputs w
  let isValid := v.1
  let w1 := v.2
  if !isValid then
    ⟨{ w1 with dom := { w1.dom with
        tipAmount := jsStr "$0.00"
        totalAmount := jsStr "$0.00"
        perPerson := jsStr "$0.00" } }, none⟩
  else
    let tipAmount := JSNum.mul w1.state.bill (JSNum.div w1.state.tipPercent (JSNum.ofInt 100))
    let total := JSNum.add w1.state.bill tipAmount
    let perPerson := JSNum.div total w1.state.people
    let start : Outcome World := ⟨w1, none⟩
    ((start.andThen
      (setText (formatCurrency nf w1.state tipAmount) (fun t d => { d with tipAmount := t }))).andThen
      (setText (formatCurrency nf w1.state total) (fun t d => { d with totalAmount := t }))).andThen
      (setText (formatCurrency nf w1.state perPerson) (fun t d => { d with perPerson := t }))

/-- The call `saveState()` as a statement that follows others. -/
def thenSave (w : World) : Outcome World := ⟨saveState w, none⟩

/-- The function `reset` (lines 128-146). -/
def reset (nf : NumberFormat) (w : World) : Outcome World :=
  let state : State :=
    { bill := JSNum.ofInt 0
      tipPercent := JSNum.ofInt 0
      people := JSNum.ofInt 1
      dark := w.state.dark
      currency := w.state.currency }
  let dom : Dom :=
    { w.dom with
      billAmount := JSVal.str (jsStr "")
      customTip := JSVal.str (jsStr "")
      numPeople := JSVal.str (jsStr "1")
      billError := { w.dom.billError with hidden := true }
      peopleError := { w.dom.peopleError with hidden := true } }
  (calculate nf (updateTipButtons { w with state := state, dom := dom })).andThen thenSave

/-- The function `toggleDarkMode` (lines 149-153). -/
def toggleDarkMode (w : World) : World :=
  let state : State := { w.state with dark := !w.state.dark }
  saveState { w with state := state, dom := { w.dom with darkClass := state.dark } }

/-- The `input` listener of the bill field (lines 158-162). -/
def billChanged (nf : NumberFormat) (value : JSString) (w : World) : Outcome World :=
  (calculate nf { w with state := { w.state with bill := toNumber value } }).andThen thenSave

/-- The `input` listener of the custom tip field (lines 165-170). -/
def customTipChanged (nf : NumberFormat) (value : JSString) (w : World) : Outcome World :=
  (calculate nf (updateTipButtons
    { w with state := { w.state with tipPercent := toNumber value } })).andThen thenSave

/-- The `input` listener of the people field (lines 173-177). -/
def peopleChanged (nf : NumberFormat) (value : JSString) (w : World) : Outcome World :=
  (calculate nf { w with state := { w.state with people := toNumber value } }).andThen thenSave

/-- The `click` listener of the preset button at position `i` (lines
180-188); there is no listener where there is no button. -/
def tipButtonPressed (nf : NumberFormat) (i : Nat) (w : World) : Outcome World :=
  match w.dom.tipButtons.get? i with
  | none => ⟨w, none⟩
  | some btn =>
      (calculate nf (updateTipButtons
        { w with
          state := { w.state with tipPercent := parseFloat btn.tipText }
          dom := { w.dom with customTip := JSVal.str (jsStr "") } })).andThen thenSave

/-- The `change` listener of the currency selector (lines 194-198). -/
def currencyChanged (nf : NumberFormat) (value : JSString) (w : World) : Outcome World :=
  (calculate nf { w with state := { w.state with currency := value } }).andThen thenSave

/-- The `keydown` listener of the document (lines 223-229). -/
def keydown (nf : NumberFormat) (key : JSString) (w : World) : Outcome World :=
  if key = jsStr "Enter" then calculate nf w
  else if key = jsStr "Escape" then reset nf w
  else ⟨w, none⟩

/-- The three text inputs a user can type into. -/
inductive InputEvent where
  | bill (text : JSString)
  | customTip (text : JSString)
  | people (text : JSString)

/-- One `input` event: the field holds the typed text and its listener
runs; the page goes on with what the listener left. -/
def inputStep (nf : NumberFormat) (w : World) : InputEvent → World
  | InputEvent.bill text =>
      (billChanged nf text { w with dom := { w.dom with billAmount := JSVal.str text } }).result
  | InputEvent.customTip text =>
      (customTipChanged nf text
        { w with dom := { w.dom with customTip := JSVal.str text } }).result
  | InputEvent.people text =>
      (peopleChanged nf text { w with dom := { w.dom with numPeople := JSVal.str text } }).result

/-- A sequence of `input` events, one after the other. -/
def runInputs (nf : NumberFormat) (w : World) (events : List InputEvent) : World :=
  events.foldl (inputStep nf) w

/-- The events the eight listeners of `setupEventListeners` that touch the
calculator answer to. -/
inductive Event where
  | billInput (text : JSString)
  | customTipInput (text : JSString)
  | peopleInput (text : JSString)
  | tipClick (i : Nat)
  | resetClick
  | currencyChange (code : JSString)
  | darkModeClick
  | keydown (key : JSString)

/-- One event: the page takes the user's entry, the listener runs, and the
page goes on with what the listener left, whether it threw or not. -/
def step (nf : NumberFormat) (w : World) : Event → World
  | Event.billInput text =>
      (billChanged nf text { w with dom := { w.dom with billAmount := JSVal.str text } }).result
  | Event.customTipInput text =>
      (customTipChanged nf text
        { w with dom := { w.dom with customTip := JSVal.str text } }).result
  | Event.peopleInput text =>
      (peopleChanged nf text { w with dom := { w.dom with numPeople := JSVal.str text } }).result
  | Event.tipClick i => (tipButtonPressed nf i w).result
  | Event.resetClick => (reset nf w).result
  | Event.currencyChange code =>
      (currencyChanged nf code
        { w with dom := { w.dom with currencySelect := JSVal.str code } }).result
  | Event.darkModeClick => toggleDarkMode w
  | Event.keydown key => (keydown nf key w).result

/-- A sequence of events, one after the other. -/
def run (nf : NumberFormat) (w : World) (events : List Event) : World :=
  events.foldl (step nf) w

/-- A page to evaluate on: empty fields, the given preset buttons, and
both error lines hidden. -/
def samplePage (buttons : List TipBtn) : Dom :=
  { billAmount := JSVal.str (jsStr "")
    customTip := JSVal.str (jsStr "")
    numPeople := JSVal.str (jsStr "1")
    currencySelect := JSVal.str (jsStr "AUD")
    tipAmount := jsStr "$0.00"
    totalAmount := jsStr "$0.00"
    perPerson := jsStr "$0.00"
    tipButtons := buttons
    billError := ⟨jsStr "", true⟩
    peopleError := ⟨jsStr "", true⟩
    darkClass := false }

/-- A preset button carrying the given `data-tip`, not pressed. -/
def presetButton (tip : String) : TipBtn := ⟨some (jsStr tip), false, some (jsStr "false")⟩

/-- A plain rendering of a number: sign, significand, `p`, binary exponent. -/
def showNum : JSNum → JSString
  | JSNum.nan => jsStr "NaN"
  | JSNum.inf neg => (if neg then jsStr "-" else []) ++ jsStr "Infinity"
  | JSNum.fin neg m e =>
      (if neg then jsStr "-" else []) ++ indexKey m ++ jsStr "p"
        ++ (if e < 0 then jsStr "-" else []) ++ indexKey e.natAbs

/-- A formatter to evaluate on: the currency code, a space and the plain
rendering of the amount. -/
def sampleFormat : NumberFormat := fun _ currency amount => currency ++ jsStr " " ++ showNum amount

/-! ## Notions used in the statements -/

/-- The number a preset button carries: `parseFloat(btn.dataset.tip)`. -/
def TipBtn.value (b : TipBtn) : JSNum := parseFloat b.tipText

/-- The preset buttons marked active. -/
def activeButtons (d : Dom) : List TipBtn := d.tipButtons.filter (fun b => b.active)

/-- No two preset buttons of the page carry values that `===` holds equal. -/
def distinctPresets (d : Dom) : Prop :=
  d.tipButtons.Pairwise (fun a b => JSNum.strictEq a.value b.value = false)

/-- The rational a finite number stands for (and `0` for the others). -/
def JSNum.toRat : JSNum → ℚ
  | JSNum.fin neg m e => (JSNum.signed neg m : ℚ) * (2 : ℚ) ^ e
  | _ => 0

/-- The value the last entry for `key` in a property list gives it. -/
def lastValue : List (JSString × JSVal) → JSString → Option JSVal
  | [], _ => none
  | (k, v) :: rest, key =>
      match lastValue rest key with
      | some w => some w
      | none => if k = key then some v else none

/-- What a run of the program finds after `state` was saved: `saveState`,
then `loadState` over the previous state `s0` (the initial one, at the next
start). -/
def saveThenLoad (s s0 : State) (dom : Dom) : Outcome (JSObject × Dom) :=
  loadState (saveState ⟨s, dom, Stored.missing⟩).storage s0.toObject dom

/-- Whether the four values that `loadState` puts into the fields of the
page can be turned into text. -/
def fieldsConvertible (st : JSObject) : Bool :=
  !((st.get (jsStr "bill")).or (JSVal.str (jsStr ""))).toStringThrows
    && !((st.get (jsStr "tipPercent")).or (JSVal.str (jsStr ""))).toStringThrows
    && !((st.get (jsStr "people")).or (JSVal.num (JSNum.ofInt 1))).toStringThrows
    && !((st.get (jsStr "currency")).or (JSVal.str (jsStr "AUD"))).toStringThrows

/-- The worlds the page can be in: those that a sequence of events leads to
from the initial state. -/
def Reachable (nf : NumberFormat) (w : World) : Prop :=
  ∃ (events : List Event) (dom : Dom) (storage : Stored),
    w = run nf ⟨defaultState, dom, storage⟩ events

/-! ## Basic facts -/

theorem saveState_state (w : World) : (saveState w).state = w.state := rfl

theorem saveState_dom (w : World) : (saveState w).dom = w.dom := rfl

theorem andThen_thenSave_state (o : Outcome World) :
    (o.andThen thenSave).result.state = o.result.state := by
  unfold Outcome.andThen
  cases o.thrown <;> rfl

theorem andThen_thenSave_dom (o : Outcome World) :
    (o.andThen thenSave).result.dom = o.result.dom := by
  unfold Outcome.andThen
  cases o.thrown <;> rfl

theorem andThen_thenSave_thrown (o : Outcome World) :
    (o.andThen thenSave).thrown = o.thrown := by
  unfold Outcome.andThen
  cases h : o.thrown with
  | none => rfl
  | some e => exact h

theorem updateTipButtons_state (w : World) : (updateTipButtons w).state = w.state := rfl

theorem validateInputs_state (w : World) : (validateInputs w).2.state = w.state := rfl

theorem validateInputs_storage (w : World) : (validateInputs w).2.storage = w.storage := rfl

theorem validateInputs_valid (w : World) :
    (validateInputs w).1 =
      (!JSNum.le w.state.bill (JSNum.ofInt 0) && !JSNum.lt w.state.people (JSNum.ofInt 1)) := by
  unfold validateInputs
  cases JSNum.le w.state.bill (JSNum.ofInt 0) <;>
    cases JSNum.lt w.state.people (JSNum.ofInt 1) <;> simp

theorem validateInputs_billError (w : World) :
    (validateInputs w).2.dom.billError =
      if JSNum.le w.state.bill (JSNum.ofInt 0) then
        ⟨jsStr "Bill amount must be greater than 0", false⟩
      else { w.dom.billError with hidden := true } := by
  unfold validateInputs
  cases JSNum.le w.state.bill (JSNum.ofInt 0) <;>
    cases JSNum.lt w.state.people (JSNum.ofInt 1) <;> simp

theorem validateInputs_peopleError (w : World) :
    (validateInputs w).2.dom.peopleError =
      if JSNum.lt w.state.people (JSNum.ofInt 1) then
        ⟨jsStr "Must be at least 1 person", false⟩
      else { w.dom.peopleError with hidden := true } := by
  unfold validateInputs
  cases JSNum.le w.state.bill (JSNum.ofInt 0) <;>
    cases JSNum.lt w.state.people (JSNum.ofInt 1) <;> simp

theorem validateInputs_amounts (w : World) :
    (validateInputs w).2.dom.tipAmount = w.dom.tipAmount ∧
    (validateInputs w).2.dom.totalAmount = w.dom.totalAmount ∧
    (validateInputs w).2.dom.perPerson = w.dom.perPerson := by
  unfold validateInputs
  cases JSNum.le w.state.bill (JSNum.ofInt 0) <;>
    cases JSNum.lt w.state.people (JSNum.ofInt 1) <;> simp

theorem calculate_invalid (nf : NumberFormat) (w : World) (h : (validateInputs w).1 = false) :
    calculate nf w = ⟨{ (validateInputs w).2 with dom := { (validateInputs w).2.dom with
      tipAmount := jsStr "$0.00"
      totalAmount := jsStr "$0.00"
      perPerson := jsStr "$0.00" } }, none⟩ := by
  unfold calculate
  simp [h]

theorem calculate_valid (nf : NumberFormat) (w : World) (h : (validateInputs w).1 = true)
    (hc : isWellFormedCurrencyCode w.state.currency = true) :
    calculate nf w = ⟨{ (validateInputs w).2 with dom := { (validateInputs w).2.dom with
      tipAmount := nf (jsStr "en-AU") w.state.currency
        (JSNum.mul w.state.bill (JSNum.div w.state.tipPercent (JSNum.ofInt 100)))
      totalAmount := nf (jsStr "en-AU") w.state.currency
        (JSNum.add w.state.bill
          (JSNum.mul w.state.bill (JSNum.div w.state.tipPercent (JSNum.ofInt 100))))
      perPerson := nf (jsStr "en-AU") w.state.currency
        (JSNum.div (JSNum.add w.state.bill
          (JSNum.mul w.state.bill (JSNum.div w.state.tipPercent (JSNum.ofInt 100))))
          w.state.people) } }, none⟩ := by
  unfold calculate
  simp [h, hc, validateInputs_state, formatCurrency, setText, Outcome.andThen]

theorem calculate_rejected (nf : NumberFormat) (w : World) (h : (validateInputs w).1 = true)
    (hc : isWellFormedCurrencyCode w.state.currency = false) :
    calculate nf w = ⟨(validateInputs w).2, some JSError.rangeError⟩ := by
  unfold calculate
  simp [h, hc, validateInputs_state, formatCurrency, setText, Outcome.andThen]

theorem calculate_cases (nf : NumberFormat) (w : World) :
    ∃ (t a p : JSString) (e : Option JSError),
      calculate nf w = ⟨{ (validateInputs w).2 with dom := { (validateInputs w).2.dom with
        tipAmount := t, totalAmount := a, perPerson := p } }, e⟩ := by
  cases h : (validateInputs w).1 with
  | false => exact ⟨_, _, _, _, calculate_invalid nf w h⟩
  | true =>
    cases hc : isWellFormedCurrencyCode w.state.currency with
    | true => exact ⟨_, _, _, _, calculate_valid nf w h hc⟩
    | false => exact ⟨_, _, _, _, calculate_rejected nf w h hc⟩

theorem calculate_state (nf : NumberFormat) (w : World) :
    (calculate nf w).result.state = w.state := by
  obtain ⟨t, a, p, e, h⟩ := calculate_cases nf w
  rw [h]
  rfl

theorem calculate_billError (nf : NumberFormat) (w : World) :
    (calculate nf w).result.dom.billError = (validateInputs w).2.dom.billError := by
  obtain ⟨t, a, p, e, h⟩ := calculate_cases nf w
  rw [h]

theorem calculate_peopleError (nf : NumberFormat) (w : World) :
    (calculate nf w).result.dom.peopleError = (validateInputs w).2.dom.peopleError := by
  obtain ⟨t, a, p, e, h⟩ := calculate_cases nf w
  rw [h]

theorem JSNum.le_false_of_gt {x y : JSNum} (h : JSNum.gt x y = true) : JSNum.le x y = false := by
  unfold JSNum.gt at h
  unfold JSNum.le
  cases hl : JSNum.lessThan y x with
  | none => rfl
  | some b => rw [hl] at h; cases b <;> simp_all

theorem JSNum.lt_false_of_ge {x y : JSNum} (h : JSNum.ge x y = true) : JSNum.lt x y = false := by
  unfold JSNum.ge at h
  unfold JSNum.lt
  cases hl : JSNum.lessThan x y with
  | none => rfl
  | some b => rw [hl] at h; cases b <;> simp_all

theorem JSNum.lessThan_isSome {x y : JSNum} (hx : x.isNaN = false) (hy : y.isNaN = false) :
    ∃ b, JSNum.lessThan x y = some b := by
  cases x <;> cases y <;> simp_all [JSNum.lessThan, JSNum.isNaN]

theorem JSNum.gt_eq_not_le {x y : JSNum} (hx : x.isNaN = false) (hy : y.isNaN = false) :
    JSNum.gt x y = !JSNum.le x y := by
  obtain ⟨b, hb⟩ := JSNum.lessThan_isSome hy hx
  unfold JSNum.gt JSNum.le
  rw [hb]
  cases b <;> rfl

theorem JSNum.ge_eq_not_lt {x y : JSNum} (hx : x.isNaN = false) (hy : y.isNaN = false) :
    JSNum.ge x y = !JSNum.lt x y := by
  obtain ⟨b, hb⟩ := JSNum.lessThan_isSome hx hy
  unfold JSNum.ge JSNum.lt
  rw [hb]
  cases b <;> rfl

theorem validateInputs_of_valid (w : World)
    (hb : JSNum.gt w.state.bill (JSNum.ofInt 0) = true)
    (hp : JSNum.ge w.state.people (JSNum.ofInt 1) = true) : (validateInputs w).1 = true := by
  rw [validateInputs_valid, JSNum.le_false_of_gt hb, JSNum.lt_false_of_ge hp]
  rfl

/-! ## Calculation -/

/-- C1: for every state with `bill > 0` and `people >= 1`, whatever the tip
percentage, `calculate` formats `bill * (tipPercent / 100)`, `bill + tipAmount`
and `total / people`, with nothing done to them before formatting, and, the
currency code being one the formatter accepts, completes and displays the
three texts; for bill 100, tip 15, people 4 the amounts are 15, 115 and 28.75
(`115 * 2^-2`), and for bill 50, tip 0, people 1 they are 0, 50 and 50. On a
currency code that is not well formed the formatter's RangeError ends
`calculate` with the three displays as they were. -/
theorem calculate_amounts (nf : NumberFormat) (w : World) :
    (JSNum.gt w.state.bill (JSNum.ofInt 0) = true →
      JSNum.ge w.state.people (JSNum.ofInt 1) = true →
      isWellFormedCurrencyCode w.state.currency = true →
      (calculate nf w).thrown = none ∧
      (calculate nf w).result.dom.tipAmount = nf (jsStr "en-AU") w.state.currency
        (JSNum.mul w.state.bill (JSNum.div w.state.tipPercent (JSNum.ofInt 100))) ∧
      (calculate nf w).result.dom.totalAmount = nf (jsStr "en-AU") w.state.currency
        (JSNum.add w.state.bill
          (JSNum.mul w.state.bill (JSNum.div w.state.tipPercent (JSNum.ofInt 100)))) ∧
      (calculate nf w).result.dom.perPerson = nf (jsStr "en-AU") w.state.currency
        (JSNum.div (JSNum.add w.state.bill
          (JSNum.mul w.state.bill (JSNum.div w.state.tipPercent (JSNum.ofInt 100))))
          w.state.people)) ∧
    (JSNum.gt w.state.bill (JSNum.ofInt 0) = true →
      JSNum.ge w.state.people (JSNum.ofInt 1) = true →
      isWellFormedCurrencyCode w.state.currency = false →
      (calculate nf w).thrown = some JSError.rangeError ∧
      (calculate nf w).result.dom.tipAmount = w.dom.tipAmount ∧
      (calculate nf w).result.dom.totalAmount = w.dom.totalAmount ∧
      (calculate nf w).result.dom.perPerson = w.dom.perPerson) ∧
    (∀ (dark : Bool) (currency : JSString), isWellFormedCurrencyCode currency = true →
      (calculate nf ⟨⟨JSNum.ofInt 100, JSNum.ofInt 15, JSNum.ofInt 4, dark, currency⟩,
          w.dom, w.storage⟩).thrown = none ∧
      (calculate nf ⟨⟨JSNum.ofInt 100, JSNum.ofInt 15, JSNum.ofInt 4, dark, currency⟩,
          w.dom, w.storage⟩).result.dom.tipAmount
        = nf (jsStr "en-AU") currency (JSNum.ofInt 15) ∧
      (calculate nf ⟨⟨JSNum.ofInt 100, JSNum.ofInt 15, JSNum.ofInt 4, dark, currency⟩,
          w.dom, w.storage⟩).result.dom.totalAmount
        = nf (jsStr "en-AU") currency (JSNum.ofInt 115) ∧
      (calculate nf ⟨⟨JSNum.ofInt 100, JSNum.ofInt 15, JSNum.ofInt 4, dark, currency⟩,
          w.dom, w.storage⟩).result.dom.perPerson
        = nf (jsStr "en-AU") currency (JSNum.fin false 115 (-2))) ∧
    (∀ (dark : Bool) (currency : JSString), isWellFormedCurrencyCode currency = true →
      (calculate nf ⟨⟨JSNum.ofInt 50, JSNum.ofInt 0, JSNum.ofInt 1, dark, currency⟩,
          w.dom, w.storage⟩).thrown = none ∧
      (calculate nf ⟨⟨JSNum.ofInt 50, JSNum.ofInt 0, JSNum.ofInt 1, dark, currency⟩,
          w.dom, w.storage⟩).result.dom.tipAmount
        = nf (jsStr "en-AU") currency (JSNum.ofInt 0) ∧
      (calculate nf ⟨⟨JSNum.ofInt 50, JSNum.ofInt 0, JSNum.ofInt 1, dark, currency⟩,
          w.dom, w.storage⟩).result.dom.totalAmount
        = nf (jsStr "en-AU") currency (JSNum.ofInt 50) ∧
      (calculate nf ⟨⟨JSNum.ofInt 50, JSNum.ofInt 0, JSNum.ofInt 1, dark, currency⟩,
          w.dom, w.storage⟩).result.dom.perPerson
        = nf (jsStr "en-AU") currency (JSNum.ofInt 50)) := by
  refine ⟨?_, ?_, ?_, ?_⟩
  · intro hb hp hc
    rw [calculate_valid nf w (validateInputs_of_valid w hb hp) hc]
    exact ⟨rfl, rfl, rfl, rfl⟩
  · intro hb hp hc
    rw [calculate_rejected nf w (validateInputs_of_valid w hb hp) hc]
    exact ⟨rfl, validateInputs_amounts w⟩
  · intro dark currency hc
    have e1 : JSNum.mul (JSNum.ofInt 100) (JSNum.div (JSNum.ofInt 15) (JSNum.ofInt 100))
        = JSNum.ofInt 15 := by decide
    have e2 : JSNum.add (JSNum.ofInt 100) (JSNum.ofInt 15) = JSNum.ofInt 115 := by decide
    have e3 : JSNum.div (JSNum.ofInt 115) (JSNum.ofInt 4) = JSNum.fin false 115 (-2) := by decide
    rw [calculate_valid nf
      ⟨⟨JSNum.ofInt 100, JSNum.ofInt 15, JSNum.ofInt 4, dark, currency⟩, w.dom, w.storage⟩
      (validateInputs_of_valid _
        (show JSNum.gt (JSNum.ofInt 100) (JSNum.ofInt 0) = true by decide)
        (show JSNum.ge (JSNum.ofInt 4) (JSNum.ofInt 1) = true by decide)) hc]
    simp only [e1, e2, e3]
    exact ⟨trivial, trivial, trivial, trivial⟩
  · intro dark currency hc
    have e1 : JSNum.mul (JSNum.ofInt 50) (JSNum.div (JSNum.ofInt 0) (JSNum.ofInt 100))
        = JSNum.ofInt 0 := by decide
    have e2 : JSNum.add (JSNum.ofInt 50) (JSNum.ofInt 0) = JSNum.ofInt 50 := by decide
    have e3 : JSNum.div (JSNum.ofInt 50) (JSNum.ofInt 1) = JSNum.ofInt 50 := by decide
    rw [calculate_valid nf
      ⟨⟨JSNum.ofInt 50, JSNum.ofInt 0, JSNum.ofInt 1, dark, currency⟩, w.dom, w.storage⟩
      (validateInputs_of_valid _
        (show JSNum.gt (JSNum.ofInt 50) (JSNum.ofInt 0) = true by decide)
        (show JSNum.ge (JSNum.ofInt 1) (JSNum.ofInt 1) = true by decide)) hc]
    simp only [e1, e2, e3]
    exact ⟨trivial, trivial, trivial, trivial⟩

/-- Witness for C1: bill 12.5, tip -2.5 per cent, three people and the
currency AUD give a tip of -0.3125, a total of 12.1875 and 4.0625 each. -/
theorem calculate_amounts_witness :
    JSNum.gt (JSNum.fin false 25 (-1)) (JSNum.ofInt 0) = true ∧
    JSNum.ge (JSNum.ofInt 3) (JSNum.ofInt 1) = true ∧
    isWellFormedCurrencyCode (jsStr "AUD") = true ∧
    (calculate sampleFormat ⟨⟨JSNum.fin false 25 (-1), JSNum.fin true 5 (-1), JSNum.ofInt 3,
        false, jsStr "AUD"⟩, samplePage [], Stored.missing⟩).thrown = none ∧
    (calculate sampleFormat ⟨⟨JSNum.fin false 25 (-1), JSNum.fin true 5 (-1), JSNum.ofInt 3,
        false, jsStr "AUD"⟩, samplePage [], Stored.missing⟩).result.dom.tipAmount
      = sampleFormat (jsStr "en-AU") (jsStr "AUD") (JSNum.fin true 5 (-4)) ∧
    (calculate sampleFormat ⟨⟨JSNum.fin false 25 (-1), JSNum.fin true 5 (-1), JSNum.ofInt 3,
        false, jsStr "AUD"⟩, samplePage [], Stored.missing⟩).result.dom.totalAmount
      = sampleFormat (jsStr "en-AU") (jsStr "AUD") (JSNum.fin false 195 (-4)) ∧
    (calculate sampleFormat ⟨⟨JSNum.fin false 25 (-1), JSNum.fin true 5 (-1), JSNum.ofInt 3,
        false, jsStr "AUD"⟩, samplePage [], Stored.missing⟩).result.dom.perPerson
      = sampleFormat (jsStr "en-AU") (jsStr "AUD") (JSNum.fin false 65 (-4)) :=
  have h := (calculate_amounts sampleFormat ⟨⟨JSNum.fin false 25 (-1), JSNum.fin true 5 (-1),
      JSNum.ofInt 3, false, jsStr "AUD"⟩, samplePage [], Stored.missing⟩).1
    (by decide) (by decide) (by decide)
  ⟨by decide, by decide, by decide, h.1, h.2.1.trans (by decide), h.2.2.1.trans (by decide),
    h.2.2.2.trans (by decide)⟩

/-- C2: for every state with `bill <= 0` or `people < 1`, `calculate`
completes, displays the zero amount three times and shows the error line,
with its message, of each failing field; bill 0, tip 20, people 2 shows the bill error
and three zero amounts. -/
theorem calculate_invalid_zero (nf : NumberFormat) (w : World) :
    (JSNum.le w.state.bill (JSNum.ofInt 0) = true ∨
        JSNum.lt w.state.people (JSNum.ofInt 1) = true →
      (calculate nf w).thrown = none ∧
      (calculate nf w).result.dom.tipAmount = jsStr "$0.00" ∧
      (calculate nf w).result.dom.totalAmount = jsStr "$0.00" ∧
      (calculate nf w).result.dom.perPerson = jsStr "$0.00" ∧
      (JSNum.le w.state.bill (JSNum.ofInt 0) = true →
        (calculate nf w).result.dom.billError = ⟨jsStr "Bill amount must be greater than 0", false⟩) ∧
      (JSNum.lt w.state.people (JSNum.ofInt 1) = true →
        (calculate nf w).result.dom.peopleError = ⟨jsStr "Must be at least 1 person", false⟩)) ∧
    (∀ (dark : Bool) (currency : JSString),
      (calculate nf ⟨⟨JSNum.ofInt 0, JSNum.ofInt 20, JSNum.ofInt 2, dark, currency⟩,
          w.dom, w.storage⟩).result.dom.billError
        = ⟨jsStr "Bill amount must be greater than 0", false⟩ ∧
      (calculate nf ⟨⟨JSNum.ofInt 0, JSNum.ofInt 20, JSNum.ofInt 2, dark, currency⟩,
          w.dom, w.storage⟩).result.dom.tipAmount = jsStr "$0.00" ∧
      (calculate nf ⟨⟨JSNum.ofInt 0, JSNum.ofInt 20, JSNum.ofInt 2, dark, currency⟩,
          w.dom, w.storage⟩).result.dom.totalAmount = jsStr "$0.00" ∧
      (calculate nf ⟨⟨JSNum.ofInt 0, JSNum.ofInt 20, JSNum.ofInt 2, dark, currency⟩,
          w.dom, w.storage⟩).result.dom.perPerson = jsStr "$0.00") := by
  have key : ∀ v : World, JSNum.le v.state.bill (JSNum.ofInt 0) = true ∨
      JSNum.lt v.state.people (JSNum.ofInt 1) = true →
      (calculate nf v).thrown = none ∧
      (calculate nf v).result.dom.tipAmount = jsStr "$0.00" ∧
      (calculate nf v).result.dom.totalAmount = jsStr "$0.00" ∧
      (calculate nf v).result.dom.perPerson = jsStr "$0.00" ∧
      (JSNum.le v.state.bill (JSNum.ofInt 0) = true →
        (calculate nf v).result.dom.billError = ⟨jsStr "Bill amount must be greater than 0", false⟩) ∧
      (JSNum.lt v.state.people (JSNum.ofInt 1) = true →
        (calculate nf v).result.dom.peopleError = ⟨jsStr "Must be at least 1 person", false⟩) := by
    intro v h
    have hv : (validateInputs v).1 = false := by
      rw [validateInputs_valid]
      rcases h with h | h <;> simp [h]
    have hc := calculate_invalid nf v hv
    refine ⟨by rw [hc], by rw [hc], by rw [hc], by rw [hc], ?_, ?_⟩
    · intro hb
      rw [calculate_billError, validateInputs_billError, if_pos hb]
    · intro hp
      rw [calculate_peopleError, validateInputs_peopleError, if_pos hp]
  refine ⟨key w, ?_⟩
  intro dark currency
  have hb : JSNum.le (JSNum.ofInt 0) (JSNum.ofInt 0) = true := by decide
  obtain ⟨_, h1, h2, h3, h4, _⟩ :=
    key ⟨⟨JSNum.ofInt 0, JSNum.ofInt 20, JSNum.ofInt 2, dark, currency⟩, w.dom, w.storage⟩
      (Or.inl hb)
  exact ⟨h4 hb, h1, h2, h3⟩

/-- Witness for C2: bill -3 and no people, both fields failing. -/
theorem calculate_invalid_zero_witness :
    (JSNum.le (JSNum.ofInt (-3)) (JSNum.ofInt 0) = true ∨
      JSNum.lt (JSNum.ofInt 0) (JSNum.ofInt 1) = true) ∧
    (calculate sampleFormat ⟨⟨JSNum.ofInt (-3), JSNum.ofInt 10, JSNum.ofInt 0, false,
        jsStr "AUD"⟩, samplePage [], Stored.missing⟩).result.dom.perPerson = jsStr "$0.00" ∧
    (calculate sampleFormat ⟨⟨JSNum.ofInt (-3), JSNum.ofInt 10, JSNum.ofInt 0, false,
        jsStr "AUD"⟩, samplePage [], Stored.missing⟩).result.dom.peopleError
      = ⟨jsStr "Must be at least 1 person", false⟩ :=
  ⟨Or.inl (by decide),
    ((calculate_invalid_zero sampleFormat ⟨⟨JSNum.ofInt (-3), JSNum.ofInt 10, JSNum.ofInt 0,
        false, jsStr "AUD"⟩, samplePage [], Stored.missing⟩).1 (Or.inl (by decide))).2.2.2.1,
    ((calculate_invalid_zero sampleFormat ⟨⟨JSNum.ofInt (-3), JSNum.ofInt 10, JSNum.ofInt 0,
        false, jsStr "AUD"⟩, samplePage [], Stored.missing⟩).1 (Or.inl (by decide))).2.2.2.2.2
      (by decide)⟩

/-! ## Reset -/

theorem reset_result_state (nf : NumberFormat) (w : World) :
    (reset nf w).result.state
      = ⟨JSNum.ofInt 0, JSNum.ofInt 0, JSNum.ofInt 1, w.state.dark, w.state.currency⟩ := by
  unfold reset
  rw [andThen_thenSave_state, calculate_state, updateTipButtons_state]

/-- C4: for every state, `reset` leaves bill 0, tip 0 and one person, with
the dark-mode flag and the currency as they were; after bill 80, tip 18, three
people and dark mode on it gives 0, 0, 1, dark mode on and the same
currency. -/
theorem reset_state (nf : NumberFormat) (w : World) :
    (reset nf w).result.state.bill = JSNum.ofInt 0 ∧
    (reset nf w).result.state.tipPercent = JSNum.ofInt 0 ∧
    (reset nf w).result.state.people = JSNum.ofInt 1 ∧
    (reset nf w).result.state.dark = w.state.dark ∧
    (reset nf w).result.state.currency = w.state.currency ∧
    (∀ (currency : JSString),
      (reset nf ⟨⟨JSNum.ofInt 80, JSNum.ofInt 18, JSNum.ofInt 3, true, currency⟩,
          w.dom, w.storage⟩).result.state
        = ⟨JSNum.ofInt 0, JSNum.ofInt 0, JSNum.ofInt 1, true, currency⟩) := by
  refine ⟨?_, ?_, ?_, ?_, ?_, ?_⟩
  · rw [reset_result_state]
  · rw [reset_result_state]
  · rw [reset_result_state]
  · rw [reset_result_state]
  · rw [reset_result_state]
  · intro currency
    rw [reset_result_state]

/-- C9 fails on the code: for every state, `reset` completes and once it
has run the bill error is shown again, with its message, because the
`calculate` that `reset` ends with validates the bill it has just set to zero;
only the people error stays hidden. -/
theorem reset_shows_bill_error (nf : NumberFormat) (w : World) :
    (reset nf w).thrown = none ∧
    (reset nf w).result.dom.billError = ⟨jsStr "Bill amount must be greater than 0", false⟩ ∧
    (reset nf w).result.dom.peopleError.hidden = true := by
  have hb : JSNum.le (JSNum.ofInt 0) (JSNum.ofInt 0) = true := by decide
  have hp1 : JSNum.lt (JSNum.ofInt 1) (JSNum.ofInt 1) = false := by decide
  refine ⟨?_, ?_, ?_⟩
  · unfold reset
    rw [andThen_thenSave_thrown, calculate_invalid]
    rw [validateInputs_valid]
    simp only [updateTipButtons_state]
    rw [hb]
    rfl
  · unfold reset
    rw [andThen_thenSave_dom, calculate_billError, validateInputs_billError]
    simp only [updateTipButtons_state]
    rw [if_pos hb]
  · unfold reset
    rw [andThen_thenSave_dom, calculate_peopleError, validateInputs_peopleError]
    simp only [updateTipButtons_state]
    rw [if_neg (by rw [hp1]; decide)]

/-! ## Equality of numbers -/

theorem JSNum.signed_scale_cast (s : Bool) (m : Nat) (e c : Int) (h : c ≤ e) :
    ((JSNum.signed s (m * 2 ^ (e - c).toNat) : Int) : ℚ)
      = (JSNum.signed s m : ℚ) * (2 : ℚ) ^ e * ((2 : ℚ) ^ c)⁻¹ := by
  have hz : ((e - c).toNat : Int) = e - c := Int.toNat_of_nonneg (by omega)
  have hp : (2 : ℚ) ^ (e - c).toNat = (2 : ℚ) ^ e * ((2 : ℚ) ^ c)⁻¹ := by
    rw [← zpow_natCast, hz, zpow_sub₀ (by norm_num : (2 : ℚ) ≠ 0), div_eq_mul_inv]
  unfold JSNum.signed
  split <;> push_cast <;> rw [hp] <;> ring

theorem JSNum.strictEq_fin_iff (s : Bool) (m : Nat) (e : Int) (t : Bool) (k : Nat) (f : Int) :
    JSNum.strictEq (JSNum.fin s m e) (JSNum.fin t k f) = true ↔
      (JSNum.fin s m e).toRat = (JSNum.fin t k f).toRat := by
  have hc : ((2 : ℚ) ^ (min e f))⁻¹ ≠ 0 := inv_ne_zero (zpow_ne_zero _ (by norm_num))
  simp only [JSNum.strictEq, JSNum.align, JSNum.toRat, decide_eq_true_eq]
  rw [← Int.cast_inj (α := ℚ), JSNum.signed_scale_cast s m e _ (min_le_left e f),
    JSNum.signed_scale_cast t k f _ (min_le_right e f)]
  exact mul_left_inj' hc

theorem JSNum.strictEq_comm (x y : JSNum) : JSNum.strictEq x y = JSNum.strictEq y x := by
  cases x with
  | nan => cases y <;> rfl
  | inf s => cases y <;> simp [JSNum.strictEq, eq_comm]
  | fin s m e =>
    cases y with
    | nan => rfl
    | inf t => rfl
    | fin t k f =>
      rw [Bool.eq_iff_iff, JSNum.strictEq_fin_iff, JSNum.strictEq_fin_iff]
      exact eq_comm

theorem JSNum.strictEq_self {x : JSNum} (h : x.isNaN = false) : JSNum.strictEq x x = true := by
  cases x with
  | nan => simp [JSNum.isNaN] at h
  | inf s => simp [JSNum.strictEq]
  | fin s m e => rw [JSNum.strictEq_fin_iff]

theorem JSNum.strictEq_of_common {x y t : JSNum} (hx : JSNum.strictEq x t = true)
    (hy : JSNum.strictEq y t = true) : JSNum.strictEq x y = true := by
  cases x with
  | nan => simp [JSNum.strictEq] at hx
  | inf a =>
    cases t with
    | nan => simp [JSNum.strictEq] at hx
    | fin _ _ _ => simp [JSNum.strictEq] at hx
    | inf c =>
      cases y with
      | nan => simp [JSNum.strictEq] at hy
      | fin _ _ _ => simp [JSNum.strictEq] at hy
      | inf b => simp_all [JSNum.strictEq]
  | fin s m e =>
    cases t with
    | nan => simp [JSNum.strictEq] at hx
    | inf _ => simp [JSNum.strictEq] at hx
    | fin u p g =>
      cases y with
      | nan => simp [JSNum.strictEq] at hy
      | inf _ => simp [JSNum.strictEq] at hy
      | fin t k f =>
        rw [JSNum.strictEq_fin_iff] at hx hy ⊢
        rw [hx, hy]

/-! ## Events -/

theorem toNumber_isNaN (text : JSString) : (toNumber text).isNaN = false := by
  unfold toNumber
  cases h : (parseFloat text).isNaN
  · simp [h]
  · simp only [h, if_true]
    decide

theorem billChanged_state (nf : NumberFormat) (text : JSString) (w : World) :
    (billChanged nf text w).result.state = { w.state with bill := toNumber text } := by
  unfold billChanged
  rw [andThen_thenSave_state, calculate_state]

theorem customTipChanged_state (nf : NumberFormat) (text : JSString) (w : World) :
    (customTipChanged nf text w).result.state = { w.state with tipPercent := toNumber text } := by
  unfold customTipChanged
  rw [andThen_thenSave_state, calculate_state, updateTipButtons_state]

theorem peopleChanged_state (nf : NumberFormat) (text : JSString) (w : World) :
    (peopleChanged nf text w).result.state = { w.state with people := toNumber text } := by
  unfold peopleChanged
  rw [andThen_thenSave_state, calculate_state]

theorem currencyChanged_state (nf : NumberFormat) (code : JSString) (w : World) :
    (currencyChanged nf code w).result.state = { w.state with currency := code } := by
  unfold currencyChanged
  rw [andThen_thenSave_state, calculate_state]

theorem tipButtonPressed_state (nf : NumberFormat) (i : Nat) (w : World) :
    (tipButtonPressed nf i w).result.state.bill = w.state.bill ∧
    (tipButtonPressed nf i w).result.state.people = w.state.people := by
  unfold tipButtonPressed
  cases w.dom.tipButtons.get? i with
  | none => exact ⟨rfl, rfl⟩
  | some btn =>
    simp only []
    rw [andThen_thenSave_state, calculate_state, updateTipButtons_state]
    exact ⟨rfl, rfl⟩

theorem keydown_state (nf : NumberFormat) (key : JSString) (w : World) :
    (keydown nf key w).result.state = w.state ∨
    (keydown nf key w).result.state
      = ⟨JSNum.ofInt 0, JSNum.ofInt 0, JSNum.ofInt 1, w.state.dark, w.state.currency⟩ := by
  unfold keydown
  by_cases h1 : key = jsStr "Enter"
  · rw [if_pos h1]
    exact Or.inl (calculate_state nf w)
  · rw [if_neg h1]
    by_cases h2 : key = jsStr "Escape"
    · rw [if_pos h2]
      exact Or.inr (reset_result_state nf w)
    · rw [if_neg h2]
      exact Or.inl rfl

theorem step_numeric (nf : NumberFormat) (w : World) (ev : Event)
    (h : w.state.bill.isNaN = false ∧ w.state.people.isNaN = false) :
    (step nf w ev).state.bill.isNaN = false ∧ (step nf w ev).state.people.isNaN = false := by
  obtain ⟨hb, hp⟩ := h
  have h0 : (JSNum.ofInt 0).isNaN = false := by decide
  have h1 : (JSNum.ofInt 1).isNaN = false := by decide
  cases ev with
  | billInput text =>
    simp only [step]
    rw [billChanged_state]
    exact ⟨toNumber_isNaN text, hp⟩
  | customTipInput text =>
    simp only [step]
    rw [customTipChanged_state]
    exact ⟨hb, hp⟩
  | peopleInput text =>
    simp only [step]
    rw [peopleChanged_state]
    exact ⟨hb, toNumber_isNaN text⟩
  | tipClick i =>
    simp only [step]
    rw [(tipButtonPressed_state nf i w).1, (tipButtonPressed_state nf i w).2]
    exact ⟨hb, hp⟩
  | resetClick =>
    simp only [step]
    rw [reset_result_state]
    exact ⟨h0, h1⟩
  | currencyChange code =>
    simp only [step]
    rw [currencyChanged_state]
    exact ⟨hb, hp⟩
  | darkModeClick => exact ⟨hb, hp⟩
  | keydown key =>
    simp only [step]
    rcases keydown_state nf key w with h | h <;> rw [h]
    · exact ⟨hb, hp⟩
    · exact ⟨h0, h1⟩

theorem run_numeric (nf : NumberFormat) (events : List Event) :
    ∀ w : World, (w.state.bill.isNaN = false ∧ w.state.people.isNaN = false) →
      (run nf w events).state.bill.isNaN = false ∧
      (run nf w events).state.people.isNaN = false := by
  induction events with
  | nil => intro w h; exact h
  | cons ev rest ih =>
    intro w h
    exact ih (step nf w ev) (step_numeric nf w ev h)

theorem reachable_numeric (nf : NumberFormat) (w : World) (h : Reachable nf w) :
    w.state.bill.isNaN = false ∧ w.state.people.isNaN = false := by
  obtain ⟨events, dom, storage, hw⟩ := h
  rw [hw]
  exact run_numeric nf events ⟨defaultState, dom, storage⟩
    ⟨show defaultState.bill.isNaN = false by decide,
      show defaultState.people.isNaN = false by decide⟩

theorem inputStep_numeric (nf : NumberFormat) (w : World) (ev : InputEvent)
    (h : w.state.bill.isNaN = false ∧ w.state.tipPercent.isNaN = false ∧
      w.state.people.isNaN = false) :
    (inputStep nf w ev).state.bill.isNaN = false ∧
    (inputStep nf w ev).state.tipPercent.isNaN = false ∧
    (inputStep nf w ev).state.people.isNaN = false := by
  obtain ⟨hb, ht, hp⟩ := h
  cases ev with
  | bill text =>
    simp only [inputStep]
    rw [billChanged_state]
    exact ⟨toNumber_isNaN text, ht, hp⟩
  | customTip text =>
    simp only [inputStep]
    rw [customTipChanged_state]
    exact ⟨hb, toNumber_isNaN text, hp⟩
  | people text =>
    simp only [inputStep]
    rw [peopleChanged_state]
    exact ⟨hb, ht, toNumber_isNaN text⟩

theorem runInputs_numeric (nf : NumberFormat) (events : List InputEvent) :
    ∀ w : World, (w.state.bill.isNaN = false ∧ w.state.tipPercent.isNaN = false ∧
      w.state.people.isNaN = false) →
    (runInputs nf w events).state.bill.isNaN = false ∧
    (runInputs nf w events).state.tipPercent.isNaN = false ∧
    (runInputs nf w events).state.people.isNaN = false := by
  induction events with
  | nil => intro w h; exact h
  | cons ev rest ih =>
    intro w h
    exact ih (inputStep nf w ev) (inputStep_numeric nf w ev h)

/-- C7: for every input text the bill, people and custom-tip listeners
store `toNumber` of the text in `bill`, `people` and `tipPercent`; that number
is never NaN: it is what `parseFloat` reads when that is a number, and
exactly 0 when it is not; so from the initial state, after any sequence of
these input events, bill and people (and the tip percentage) are not NaN. -/
theorem input_never_nan (nf : NumberFormat) (text : JSString) (w : World) :
    (billChanged nf text w).result.state.bill = toNumber text ∧
    (peopleChanged nf text w).result.state.people = toNumber text ∧
    (customTipChanged nf text w).result.state.tipPercent = toNumber text ∧
    (toNumber text).isNaN = false ∧
    ((parseFloat text).isNaN = false → toNumber text = parseFloat text) ∧
    ((parseFloat text).isNaN = true → toNumber text = JSNum.ofInt 0) ∧
    (∀ events : List InputEvent,
      (runInputs nf ⟨defaultState, w.dom, w.storage⟩ events).state.bill.isNaN = false ∧
      (runInputs nf ⟨defaultState, w.dom, w.storage⟩ events).state.people.isNaN = false ∧
      (runInputs nf ⟨defaultState, w.dom, w.storage⟩ events).state.tipPercent.isNaN = false) := by
  refine ⟨?_, ?_, ?_, toNumber_isNaN text, ?_, ?_, ?_⟩
  · rw [billChanged_state]
  · rw [peopleChanged_state]
  · rw [customTipChanged_state]
  · intro h
    simp [toNumber, h]
  · intro h
    simp [toNumber, h]
  · intro events
    have h := runInputs_numeric nf events ⟨defaultState, w.dom, w.storage⟩
      ⟨show defaultState.bill.isNaN = false by decide,
        show defaultState.tipPercent.isNaN = false by decide,
        show defaultState.people.isNaN = false by decide⟩
    exact ⟨h.1, h.2.2, h.2.1⟩

/-- Witness for C7: the text `12.5` is read as the number it writes and
the text `abc` as 0. -/
theorem input_never_nan_witness :
    (parseFloat (jsStr "12.5")).isNaN = false ∧
    toNumber (jsStr "12.5") = JSNum.fin false 25 (-1) ∧
    (parseFloat (jsStr "abc")).isNaN = true ∧
    toNumber (jsStr "abc") = JSNum.ofInt 0 :=
  ⟨by decide,
    ((input_never_nan sampleFormat (jsStr "12.5")
      ⟨defaultState, samplePage [], Stored.missing⟩).2.2.2.2.1 (by decide)).trans (by decide),
    by decide,
    (input_never_nan sampleFormat (jsStr "abc")
      ⟨defaultState, samplePage [], Stored.missing⟩).2.2.2.2.2.1 (by decide)⟩

/-! ## Validation -/

/-- C3: for every state `validateInputs` shows the bill error exactly when
`bill <= 0` and the people error exactly when `people < 1`, each whatever the
other field is; it reports the state valid exactly when both error lines are
hidden; and it leaves the state and the stored item alone. On every state that
the page reaches from the initial state through its listeners, and on any
other state whose bill and people count are not NaN, valid is exactly
`bill > 0` and `people >= 1`. -/
theorem validateInputs_spec (nf : NumberFormat) (w : World) :
    ((validateInputs w).2.dom.billError.hidden = false ↔
      JSNum.le w.state.bill (JSNum.ofInt 0) = true) ∧
    ((validateInputs w).2.dom.peopleError.hidden = false ↔
      JSNum.lt w.state.people (JSNum.ofInt 1) = true) ∧
    (JSNum.le w.state.bill (JSNum.ofInt 0) = true →
      (validateInputs w).2.dom.billError.textContent = jsStr "Bill amount must be greater than 0") ∧
    (JSNum.lt w.state.people (JSNum.ofInt 1) = true →
      (validateInputs w).2.dom.peopleError.textContent = jsStr "Must be at least 1 person") ∧
    ((validateInputs w).1 = true ↔
      ((validateInputs w).2.dom.billError.hidden = true ∧
        (validateInputs w).2.dom.peopleError.hidden = true)) ∧
    (Reachable nf w →
      ((validateInputs w).1 = true ↔
        (JSNum.gt w.state.bill (JSNum.ofInt 0) = true ∧
          JSNum.ge w.state.people (JSNum.ofInt 1) = true))) ∧
    (w.state.bill.isNaN = false → w.state.people.isNaN = false →
      ((validateInputs w).1 = true ↔
        (JSNum.gt w.state.bill (JSNum.ofInt 0) = true ∧
          JSNum.ge w.state.people (JSNum.ofInt 1) = true))) ∧
    (validateInputs w).2.state = w.state ∧
    (validateInputs w).2.storage = w.storage := by
  have h0 : (JSNum.ofInt 0).isNaN = false := by decide
  have h1 : (JSNum.ofInt 1).isNaN = false := by decide
  have key : w.state.bill.isNaN = false → w.state.people.isNaN = false →
      ((validateInputs w).1 = true ↔
        (JSNum.gt w.state.bill (JSNum.ofInt 0) = true ∧
          JSNum.ge w.state.people (JSNum.ofInt 1) = true)) := by
    intro hb hp
    rw [validateInputs_valid, JSNum.gt_eq_not_le hb h0, JSNum.ge_eq_not_lt hp h1]
    cases JSNum.le w.state.bill (JSNum.ofInt 0) <;>
      cases JSNum.lt w.state.people (JSNum.ofInt 1) <;> simp
  refine ⟨?_, ?_, ?_, ?_, ?_, ?_, key, rfl, rfl⟩
  · rw [validateInputs_billError]
    cases JSNum.le w.state.bill (JSNum.ofInt 0) <;> simp
  · rw [validateInputs_peopleError]
    cases JSNum.lt w.state.people (JSNum.ofInt 1) <;> simp
  · intro h
    rw [validateInputs_billError, if_pos h]
  · intro h
    rw [validateInputs_peopleError, if_pos h]
  · rw [validateInputs_valid, validateInputs_billError, validateInputs_peopleError]
    cases JSNum.le w.state.bill (JSNum.ofInt 0) <;>
      cases JSNum.lt w.state.people (JSNum.ofInt 1) <;> simp
  · intro hr
    exact key (reachable_numeric nf w hr).1 (reachable_numeric nf w hr).2

/-- Witness for C3: the page after `12.5` is typed as the bill, the first
preset is pressed, the people field is emptied and Enter is pressed: the bill
is 12.5, nobody is there, and the state is not valid. -/
theorem validateInputs_spec_witness :
    Reachable sampleFormat (run sampleFormat
      ⟨defaultState, samplePage [presetButton "10", presetButton "15"], Stored.missing⟩
      [Event.billInput (jsStr "12.5"), Event.tipClick 0, Event.peopleInput (jsStr ""),
        Event.keydown (jsStr "Enter")]) ∧
    ((validateInputs (run sampleFormat
      ⟨defaultState, samplePage [presetButton "10", presetButton "15"], Stored.missing⟩
      [Event.billInput (jsStr "12.5"), Event.tipClick 0, Event.peopleInput (jsStr ""),
        Event.keydown (jsStr "Enter")])).1 = true ↔
      (JSNum.gt (run sampleFormat
        ⟨defaultState, samplePage [presetButton "10", presetButton "15"], Stored.missing⟩
        [Event.billInput (jsStr "12.5"), Event.tipClick 0, Event.peopleInput (jsStr ""),
          Event.keydown (jsStr "Enter")]).state.bill (JSNum.ofInt 0) = true ∧
        JSNum.ge (run sampleFormat
          ⟨defaultState, samplePage [presetButton "10", presetButton "15"], Stored.missing⟩
          [Event.billInput (jsStr "12.5"), Event.tipClick 0, Event.peopleInput (jsStr ""),
            Event.keydown (jsStr "Enter")]).state.people (JSNum.ofInt 1) = true)) ∧
    (run sampleFormat
      ⟨defaultState, samplePage [presetButton "10", presetButton "15"], Stored.missing⟩
      [Event.billInput (jsStr "12.5"), Event.tipClick 0, Event.peopleInput (jsStr ""),
        Event.keydown (jsStr "Enter")]).state
      = ⟨JSNum.fin false 25 (-1), JSNum.ofInt 10, JSNum.ofInt 0, false, jsStr "AUD"⟩ :=
  ⟨⟨_, _, _, rfl⟩,
    (validateInputs_spec sampleFormat (run sampleFormat
      ⟨defaultState, samplePage [presetButton "10", presetButton "15"], Stored.missing⟩
      [Event.billInput (jsStr "12.5"), Event.tipClick 0, Event.peopleInput (jsStr ""),
        Event.keydown (jsStr "Enter")])).2.2.2.2.2.1 ⟨_, _, _, rfl⟩,
    by decide⟩

/-! ## Preset buttons -/

theorem validateInputs_tipButtons (w : World) :
    (validateInputs w).2.dom.tipButtons = w.dom.tipButtons := by
  unfold validateInputs
  cases JSNum.le w.state.bill (JSNum.ofInt 0) <;>
    cases JSNum.lt w.state.people (JSNum.ofInt 1) <;> simp

theorem validateInputs_customTip (w : World) :
    (validateInputs w).2.dom.customTip = w.dom.customTip := by
  unfold validateInputs
  cases JSNum.le w.state.bill (JSNum.ofInt 0) <;>
    cases JSNum.lt w.state.people (JSNum.ofInt 1) <;> simp

theorem calculate_tipButtons (nf : NumberFormat) (w : World) :
    (calculate nf w).result.dom.tipButtons = w.dom.tipButtons := by
  obtain ⟨t, a, p, e, h⟩ := calculate_cases nf w
  rw [h]
  exact validateInputs_tipButtons w

theorem calculate_customTip (nf : NumberFormat) (w : World) :
    (calculate nf w).result.dom.customTip = w.dom.customTip := by
  obtain ⟨t, a, p, e, h⟩ := calculate_cases nf w
  rw [h]
  exact validateInputs_customTip w

theorem updateTipButtons_get (w : World) (j : Nat) (b : TipBtn)
    (h : (updateTipButtons w).dom.tipButtons.get? j = some b) :
    ∃ b0, w.dom.tipButtons.get? j = some b0 ∧ b.dataTip = b0.dataTip ∧
      b.active = JSNum.strictEq b0.value w.state.tipPercent := by
  simp only [updateTipButtons, List.get?_eq_getElem?, List.getElem?_map,
    Option.map_eq_some'] at h
  obtain ⟨b0, hb0, hb⟩ := h
  refine ⟨b0, by simpa using hb0, ?_, ?_⟩
  · rw [← hb]
    split <;> rfl
  · rw [← hb]
    unfold TipBtn.value
    cases hs : JSNum.strictEq (parseFloat b0.tipText) w.state.tipPercent <;> simp

theorem updateTipButtons_marks (w : World) :
    (updateTipButtons w).dom.tipButtons.map (fun b => (b.dataTip, b.active))
      = w.dom.tipButtons.map
          (fun b => (b.dataTip, JSNum.strictEq b.value w.state.tipPercent)) := by
  simp only [updateTipButtons, List.map_map]
  apply List.map_congr_left
  intro b _
  simp only [Function.comp, TipBtn.value]
  cases hs : JSNum.strictEq (parseFloat b.tipText) w.state.tipPercent <;> simp

theorem filter_match_le_one (t : JSNum) (l : List TipBtn)
    (hd : l.Pairwise (fun a b => JSNum.strictEq a.value b.value = false)) :
    (l.filter (fun b => JSNum.strictEq b.value t)).length ≤ 1 := by
  induction l with
  | nil => simp
  | cons a rest ih =>
    rw [List.pairwise_cons] at hd
    obtain ⟨ha, hrest⟩ := hd
    cases hat : JSNum.strictEq a.value t with
    | false =>
      rw [List.filter_cons_of_neg (by simp [hat])]
      exact ih hrest
    | true =>
      have hnone : rest.filter (fun b => JSNum.strictEq b.value t) = [] := by
        rw [List.filter_eq_nil_iff]
        intro b hb hbt
        have := JSNum.strictEq_of_common hat hbt
        rw [ha b hb] at this
        exact Bool.noConfusion this
      rw [List.filter_cons_of_pos (by simp [hat]), hnone]
      simp

theorem updateTipButtons_active_length (w : World) :
    (activeButtons (updateTipButtons w).dom).length
      = (w.dom.tipButtons.filter (fun b => JSNum.strictEq b.value w.state.tipPercent)).length := by
  have h := congrArg (fun l => (l.filter (fun p : Option JSString × Bool => p.2)).length)
    (updateTipButtons_marks w)
  simp only [List.filter_map, List.length_map, Function.comp] at h
  unfold activeButtons
  exact h

/-- C8, as the code has it: after `updateTipButtons` a preset button is
marked active exactly when its value `===` the tip percentage of the state, and
when no two presets carry equal values at most one is marked. After a preset
is pressed the custom-tip text is empty, the pressed preset is marked when its
value is not NaN, and when no two presets carry equal values no other preset
is marked. After a custom tip is typed a preset is marked only if its value
`===` the number entered. -/
theorem tipButtons_selection (nf : NumberFormat) (w : World) (i : Nat) (text : JSString) :
    ((updateTipButtons w).dom.tipButtons.map (fun b => (b.dataTip, b.active))
      = w.dom.tipButtons.map
          (fun b => (b.dataTip, JSNum.strictEq b.value w.state.tipPercent))) ∧
    (distinctPresets w.dom → (activeButtons (updateTipButtons w).dom).length ≤ 1) ∧
    (∀ btn, w.dom.tipButtons.get? i = some btn →
      (tipButtonPressed nf i w).result.dom.customTip = JSVal.str (jsStr "") ∧
      (btn.value.isNaN = false →
        ((tipButtonPressed nf i w).result.dom.tipButtons.get? i).map (fun b => b.active) = some true) ∧
      (distinctPresets w.dom → ∀ j b,
        (tipButtonPressed nf i w).result.dom.tipButtons.get? j = some b → b.active = true → j = i)) ∧
    (∀ j b, (customTipChanged nf text w).result.dom.tipButtons.get? j = some b → b.active = true →
      JSNum.strictEq b.value (toNumber text) = true) := by
  refine ⟨updateTipButtons_marks w, ?_, ?_, ?_⟩
  · intro hd
    rw [updateTipButtons_active_length]
    exact filter_match_le_one _ _ hd
  · intro btn hbtn
    have hpress : tipButtonPressed nf i w = (calculate nf (updateTipButtons
        { w with
          state := { w.state with tipPercent := parseFloat btn.tipText }
          dom := { w.dom with customTip := JSVal.str (jsStr "") } })).andThen thenSave := by
      unfold tipButtonPressed
      rw [hbtn]
    refine ⟨?_, ?_, ?_⟩
    · rw [hpress, andThen_thenSave_dom, calculate_customTip]
      rfl
    · intro hnan
      rw [hpress, andThen_thenSave_dom, calculate_tipButtons]
      simp only [updateTipButtons, List.get?_eq_getElem?, List.getElem?_map, Option.map_map]
      have hb' : w.dom.tipButtons[i]? = some btn := by simpa using hbtn
      rw [hb']
      have hs := JSNum.strictEq_self hnan
      unfold TipBtn.value at hs
      simp [hs]
    · intro hd j b hj hact
      rw [hpress, andThen_thenSave_dom, calculate_tipButtons] at hj
      obtain ⟨b0, hb0, _, hb0a⟩ := updateTipButtons_get _ j b hj
      simp only at hb0 hb0a
      rw [hact] at hb0a
      by_contra hne
      have hi : i < w.dom.tipButtons.length := by
        rw [List.get?_eq_getElem?] at hbtn
        exact (List.getElem?_eq_some_iff.mp hbtn).1
      have hjl : j < w.dom.tipButtons.length := by
        rw [List.get?_eq_getElem?] at hb0
        exact (List.getElem?_eq_some_iff.mp hb0).1
      have hbi : w.dom.tipButtons[i] = btn := by
        rw [List.get?_eq_getElem?] at hbtn
        exact (List.getElem?_eq_some_iff.mp hbtn).2
      have hbj : w.dom.tipButtons[j] = b0 := by
        rw [List.get?_eq_getElem?] at hb0
        exact (List.getElem?_eq_some_iff.mp hb0).2
      have hpw := List.pairwise_iff_getElem.mp hd
      have hmatch : JSNum.strictEq b0.value btn.value = true := hb0a.symm
      rcases Nat.lt_or_gt_of_ne hne with hlt | hgt
      · have := hpw j i hjl hi hlt
        rw [hbi, hbj, hmatch] at this
        exact Bool.noConfusion this
      · have := hpw i j hi hjl hgt
        rw [hbi, hbj, JSNum.strictEq_comm, hmatch] at this
        exact Bool.noConfusion this
  · intro j b hj hact
    unfold customTipChanged at hj
    rw [andThen_thenSave_dom, calculate_tipButtons] at hj
    obtain ⟨b0, _, hdt, hb0a⟩ := updateTipButtons_get _ j b hj
    simp only at hb0a
    rw [hact] at hb0a
    have hv : b.value = b0.value := by
      unfold TipBtn.value TipBtn.tipText
      rw [hdt]
    rw [hv]
    exact hb0a.symm

/-- Witness for C8: presets 10, 15 and 20, the second one pressed. -/
theorem tipButtons_selection_witness :
    distinctPresets (samplePage [presetButton "10", presetButton "15", presetButton "20"]) ∧
    (presetButton "15").value.isNaN = false ∧
    (activeButtons (updateTipButtons ⟨defaultState,
      samplePage [presetButton "10", presetButton "15", presetButton "20"],
      Stored.missing⟩).dom).length ≤ 1 ∧
    ((tipButtonPressed sampleFormat 1 ⟨defaultState,
      samplePage [presetButton "10", presetButton "15", presetButton "20"],
      Stored.missing⟩).result.dom.tipButtons.get? 1).map (fun b => b.active) = some true ∧
    (∀ j b, (tipButtonPressed sampleFormat 1 ⟨defaultState,
      samplePage [presetButton "10", presetButton "15", presetButton "20"],
      Stored.missing⟩).result.dom.tipButtons.get? j = some b → b.active = true → j = 1) :=
  have hd : distinctPresets
      (samplePage [presetButton "10", presetButton "15", presetButton "20"]) := by
    unfold distinctPresets
    decide
  have h := tipButtons_selection sampleFormat ⟨defaultState,
    samplePage [presetButton "10", presetButton "15", presetButton "20"], Stored.missing⟩ 1 []
  ⟨hd, by decide, h.2.1 hd, (h.2.2.1 (presetButton "15") rfl).2.1 (by decide),
    (h.2.2.1 (presetButton "15") rfl).2.2 hd⟩

/-- C8 as stated fails: with two preset buttons that both carry 15 and a
tip percentage of 15, `updateTipButtons` marks both of them active. -/
theorem tipButtons_duplicate_counterexample :
    (activeButtons (updateTipButtons
      ⟨⟨JSNum.ofInt 0, JSNum.ofInt 15, JSNum.ofInt 1, false, jsStr "AUD"⟩,
        samplePage [presetButton "15", presetButton "15"], Stored.missing⟩).dom).length = 2 := by
  decide

/-! ## Objects -/

theorem JSObject.get_set (o : JSObject) (k key : JSString) (v : JSVal) :
    (JSObject.set o k v).get key = if k = key then v else o.get key := by
  induction o with
  | nil =>
    simp only [JSObject.set, JSObject.get]
  | cons p rest ih =>
    obtain ⟨k0, v0⟩ := p
    by_cases h0 : k0 = k
    · subst h0
      by_cases h1 : k0 = key <;> simp [JSObject.set, JSObject.get, h1]
    · by_cases h1 : k0 = key
      · subst h1
        have h2 : ¬ k = k0 := fun h => h0 h.symm
        simp [JSObject.set, JSObject.get, h0, h2]
      · simp [JSObject.set, JSObject.get, h0, h1, ih]

theorem JSObject.has_set (o : JSObject) (k key : JSString) (v : JSVal) :
    (JSObject.set o k v).has key = (o.has key || k == key) := by
  induction o with
  | nil =>
    simp [JSObject.set, JSObject.has]
  | cons p rest ih =>
    obtain ⟨k0, v0⟩ := p
    by_cases h0 : k0 = k
    · subst h0
      by_cases h1 : k0 = key <;> simp [JSObject.set, JSObject.has, h1]
    · simp [JSObject.set, JSObject.has, h0, ih, Bool.or_assoc]

theorem JSObject.get_assign (ps : List (JSString × JSVal)) :
    ∀ (o : JSObject) (key : JSString),
      (JSObject.assign o ps).get key = (lastValue ps key).getD (o.get key) := by
  induction ps with
  | nil => intro o key; rfl
  | cons p rest ih =>
    intro o key
    obtain ⟨k, v⟩ := p
    have h := ih (JSObject.set o k v) key
    simp only [JSObject.assign, List.foldl_cons] at h ⊢
    rw [h, JSObject.get_set]
    simp only [lastValue]
    cases lastValue rest key with
    | some w => rfl
    | none => by_cases hk : k = key <;> simp [hk]

theorem JSObject.has_assign (ps : List (JSString × JSVal)) :
    ∀ (o : JSObject) (key : JSString),
      (JSObject.assign o ps).has key = (o.has key || ps.any (fun p => p.1 == key)) := by
  induction ps with
  | nil => intro o key; simp [JSObject.assign]
  | cons p rest ih =>
    intro o key
    obtain ⟨k, v⟩ := p
    have h := ih (JSObject.set o k v) key
    simp only [JSObject.assign, List.foldl_cons] at h ⊢
    rw [h, JSObject.has_set]
    simp [Bool.or_assoc]

theorem State.assign_toObject (a b : State) :
    JSObject.assign (JSObject.assign [] a.toObject) b.toObject = b.toObject := rfl

theorem State.copy_toObject (a : State) : JSObject.assign [] a.toObject = a.toObject := rfl

/-! ## Persistence -/

theorem JSNum.ne_zero_of_gt_zero {s : Bool} {m : Nat} {e : Int}
    (h : JSNum.gt (JSNum.fin s m e) (JSNum.ofInt 0) = true) : m ≠ 0 := by
  intro hm
  subst hm
  have h0 : JSNum.ofInt 0 = JSNum.fin false 0 0 := by decide
  rw [h0] at h
  cases s <;> simp [JSNum.gt, JSNum.lessThan, JSNum.align, JSNum.signed] at h

theorem JSNum.ne_zero_of_ge_one {s : Bool} {m : Nat} {e : Int}
    (h : JSNum.ge (JSNum.fin s m e) (JSNum.ofInt 1) = true) : m ≠ 0 := by
  intro hm
  subst hm
  have h1 : JSNum.ofInt 1 = JSNum.fin false 1 0 := by decide
  rw [h1] at h
  have hpos : (0 : Int) < 2 ^ (0 - min e 0).toNat := by positivity
  cases s <;> simp [JSNum.ge, JSNum.lessThan, JSNum.align, JSNum.signed, hpos] at h

theorem andThen_setValue_state (o : Outcome (JSObject × Dom)) (v : JSVal)
    (put : JSVal → Dom → Dom) : (o.andThen (setValue v put)).result.1 = o.result.1 := by
  unfold Outcome.andThen setValue
  cases o.thrown with
  | none => cases v.toStringThrows <;> rfl
  | some e => rfl

theorem andThen_setValue_thrown (o : Outcome (JSObject × Dom)) (v : JSVal)
    (put : JSVal → Dom → Dom) :
    (o.andThen (setValue v put)).thrown
      = match o.thrown with
        | none => if v.toStringThrows then some JSError.typeError else none
        | some e => some e := by
  unfold Outcome.andThen setValue
  cases h : o.thrown with
  | none => cases v.toStringThrows <;> rfl
  | some e => simpa using h

theorem loadState_json_state (v : JSVal) (state : JSObject) (dom : Dom) :
    (loadState (Stored.json v) state dom).result.1
      = JSObject.assign (JSObject.assign [] state) v.ownProps := by
  simp only [loadState]
  generalize JSObject.assign (JSObject.assign [] state) v.ownProps = st
  have hlast : ∀ (o : Outcome (JSObject × Dom)) (f : JSObject × Dom → Dom),
      (o.andThen (fun r => ⟨(r.1, f r), none⟩)).result.1 = o.result.1 := by
    intro o f
    unfold Outcome.andThen
    cases o.thrown <;> rfl
  rw [hlast, andThen_setValue_state, andThen_setValue_state, andThen_setValue_state,
    andThen_setValue_state]

theorem loadState_json_thrown (v : JSVal) (state : JSObject) (dom : Dom) :
    (loadState (Stored.json v) state dom).thrown
      = if fieldsConvertible (JSObject.assign (JSObject.assign [] state) v.ownProps) then none
        else some JSError.typeError := by
  simp only [loadState, fieldsConvertible]
  generalize JSObject.assign (JSObject.assign [] state) v.ownProps = st
  have hlast : ∀ (o : Outcome (JSObject × Dom)) (f : JSObject × Dom → Dom),
      (o.andThen (fun r => ⟨(r.1, f r), none⟩)).thrown = o.thrown := by
    intro o f
    unfold Outcome.andThen
    cases h : o.thrown with
    | none => rfl
    | some e => exact h
  rw [hlast, andThen_setValue_thrown, andThen_setValue_thrown, andThen_setValue_thrown,
    andThen_setValue_thrown]
  rcases Bool.eq_false_or_eq_true
      ((st.get (jsStr "bill")).or (JSVal.str (jsStr ""))).toStringThrows with h1 | h1 <;>
    rcases Bool.eq_false_or_eq_true
      ((st.get (jsStr "tipPercent")).or (JSVal.str (jsStr ""))).toStringThrows with h2 | h2 <;>
    rcases Bool.eq_false_or_eq_true
      ((st.get (jsStr "people")).or (JSVal.num (JSNum.ofInt 1))).toStringThrows with h3 | h3 <;>
    rcases Bool.eq_false_or_eq_true
      ((st.get (jsStr "currency")).or (JSVal.str (jsStr "AUD"))).toStringThrows with h4 | h4 <;>
    simp [h1, h2, h3, h4]

theorem JSVal.or_toStringThrows (a b : JSVal) (ha : a.toStringThrows = false)
    (hb : b.toStringThrows = false) : (a.or b).toStringThrows = false := by
  unfold JSVal.or
  cases a.truthy
  · simpa using hb
  · simpa using ha

theorem State.fieldsConvertible_toObject (s : State) : fieldsConvertible s.toObject = true := by
  have g1 : s.toObject.get (jsStr "bill") = JSVal.num s.bill := rfl
  have g2 : s.toObject.get (jsStr "tipPercent") = JSVal.num s.tipPercent := rfl
  have g3 : s.toObject.get (jsStr "people") = JSVal.num s.people := rfl
  have g4 : s.toObject.get (jsStr "currency") = JSVal.str s.currency := rfl
  unfold fieldsConvertible
  rw [g1, g2, g3, g4,
    JSVal.or_toStringThrows (JSVal.num s.bill) (JSVal.str (jsStr "")) rfl rfl,
    JSVal.or_toStringThrows (JSVal.num s.tipPercent) (JSVal.str (jsStr "")) rfl rfl,
    JSVal.or_toStringThrows (JSVal.num s.people) (JSVal.num (JSNum.ofInt 1)) rfl rfl,
    JSVal.or_toStringThrows (JSVal.str s.currency) (JSVal.str (jsStr "AUD")) rfl rfl]
  rfl

theorem jsonNum_toStringThrows (x : JSNum) : (jsonNum x).toStringThrows = false := by
  cases x with
  | nan => rfl
  | inf _ => rfl
  | fin s m e =>
    simp only [jsonNum]
    by_cases h : m = 0
    · rw [if_pos h]
      rfl
    · rw [if_neg h]
      rfl

/-- The properties `JSON.parse` reads from what `saveState` wrote. -/
theorem saveThenLoad_state (s s0 : State) (dom : Dom) :
    (saveThenLoad s s0 dom).result.1
      = [(jsStr "bill", jsonNum s.bill), (jsStr "tipPercent", jsonNum s.tipPercent),
         (jsStr "people", jsonNum s.people), (jsStr "dark", JSVal.bool s.dark),
         (jsStr "currency", JSVal.str s.currency)] := by
  unfold saveThenLoad saveState stringify
  rw [loadState_json_state]
  rfl

theorem saveThenLoad_thrown (s s0 : State) (dom : Dom) :
    (saveThenLoad s s0 dom).thrown = none := by
  have hst := saveThenLoad_state s s0 dom
  unfold saveThenLoad saveState stringify at hst ⊢
  rw [loadState_json_state] at hst
  rw [loadState_json_thrown, hst]
  have g1 : JSObject.get [(jsStr "bill", jsonNum s.bill),
      (jsStr "tipPercent", jsonNum s.tipPercent), (jsStr "people", jsonNum s.people),
      (jsStr "dark", JSVal.bool s.dark), (jsStr "currency", JSVal.str s.currency)]
      (jsStr "bill") = jsonNum s.bill := rfl
  have g2 : JSObject.get [(jsStr "bill", jsonNum s.bill),
      (jsStr "tipPercent", jsonNum s.tipPercent), (jsStr "people", jsonNum s.people),
      (jsStr "dark", JSVal.bool s.dark), (jsStr "currency", JSVal.str s.currency)]
      (jsStr "tipPercent") = jsonNum s.tipPercent := rfl
  have g3 : JSObject.get [(jsStr "bill", jsonNum s.bill),
      (jsStr "tipPercent", jsonNum s.tipPercent), (jsStr "people", jsonNum s.people),
      (jsStr "dark", JSVal.bool s.dark), (jsStr "currency", JSVal.str s.currency)]
      (jsStr "people") = jsonNum s.people := rfl
  have g4 : JSObject.get [(jsStr "bill", jsonNum s.bill),
      (jsStr "tipPercent", jsonNum s.tipPercent), (jsStr "people", jsonNum s.people),
      (jsStr "dark", JSVal.bool s.dark), (jsStr "currency", JSVal.str s.currency)]
      (jsStr "currency") = JSVal.str s.currency := rfl
  have hc : fieldsConvertible [(jsStr "bill", jsonNum s.bill),
      (jsStr "tipPercent", jsonNum s.tipPercent), (jsStr "people", jsonNum s.people),
      (jsStr "dark", JSVal.bool s.dark), (jsStr "currency", JSVal.str s.currency)] = true := by
    unfold fieldsConvertible
    rw [g1, g2, g3, g4,
      JSVal.or_toStringThrows _ (JSVal.str (jsStr "")) (jsonNum_toStringThrows s.bill) rfl,
      JSVal.or_toStringThrows _ (JSVal.str (jsStr "")) (jsonNum_toStringThrows s.tipPercent) rfl,
      JSVal.or_toStringThrows _ (JSVal.num (JSNum.ofInt 1)) (jsonNum_toStringThrows s.people) rfl,
      JSVal.or_toStringThrows (JSVal.str s.currency) (JSVal.str (jsStr "AUD")) rfl rfl]
    rfl
  rw [hc]
  rfl

theorem jsonNum_fin_ne_zero (s : Bool) {m : Nat} (e : Int) (h : m ≠ 0) :
    jsonNum (JSNum.fin s m e) = JSVal.num (JSNum.fin s m e) := by
  simp only [jsonNum]
  rw [if_neg h]

/-- C5, as the code has it: for every valid state (`bill > 0`,
`people >= 1`) whose bill, tip percentage and people count are finite,
`saveState` followed by `loadState` completes and gives a state with the same
bill, people count, dark-mode flag and currency and a tip percentage that
`===` the saved one: the same number, except that a zero comes back as `0`. -/
theorem save_load_roundtrip (s s0 : State) (dom : Dom)
    (hb : JSNum.gt s.bill (JSNum.ofInt 0) = true)
    (hp : JSNum.ge s.people (JSNum.ofInt 1) = true)
    (fb : s.bill.isFinite = true) (ft : s.tipPercent.isFinite = true)
    (fp : s.people.isFinite = true) :
    ∃ t,
      (saveThenLoad s s0 dom).thrown = none ∧
      (saveThenLoad s s0 dom).result.1
        = (⟨s.bill, t, s.people, s.dark, s.currency⟩ : State).toObject ∧
      JSNum.strictEq t s.tipPercent = true ∧
      (s.tipPercent.isZero = false → t = s.tipPercent) := by
  have hthrown := saveThenLoad_thrown s s0 dom
  have hstate := saveThenLoad_state s s0 dom
  obtain ⟨bill, tip, people, dark, currency⟩ := s
  cases bill with
  | nan => simp [JSNum.isFinite] at fb
  | inf _ => simp [JSNum.isFinite] at fb
  | fin sb mb eb =>
    cases people with
    | nan => simp [JSNum.isFinite] at fp
    | inf _ => simp [JSNum.isFinite] at fp
    | fin sp mp ep =>
      cases tip with
      | nan => simp [JSNum.isFinite] at ft
      | inf _ => simp [JSNum.isFinite] at ft
      | fin st mt et =>
        have hmb : mb ≠ 0 := JSNum.ne_zero_of_gt_zero hb
        have hmp : mp ≠ 0 := JSNum.ne_zero_of_ge_one hp
        simp only [jsonNum_fin_ne_zero sb eb hmb, jsonNum_fin_ne_zero sp ep hmp] at hstate
        by_cases hmt : mt = 0
        · subst hmt
          refine ⟨JSNum.fin false 0 0, hthrown, ?_, ?_, ?_⟩
          · rw [hstate]
            rfl
          · cases st <;> simp [JSNum.strictEq, JSNum.align, JSNum.signed]
          · intro hz
            simp [JSNum.isZero] at hz
        · simp only [jsonNum_fin_ne_zero st et hmt] at hstate
          refine ⟨JSNum.fin st mt et, hthrown, ?_, JSNum.strictEq_self rfl, fun _ => rfl⟩
          rw [hstate]
          rfl

/-- Witness for C5: bill 80, tip 18, three people, dark mode on. -/
theorem save_load_roundtrip_witness :
    JSNum.gt (JSNum.ofInt 80) (JSNum.ofInt 0) = true ∧
    JSNum.ge (JSNum.ofInt 3) (JSNum.ofInt 1) = true ∧
    (JSNum.ofInt 80).isFinite = true ∧ (JSNum.ofInt 18).isFinite = true ∧
    (JSNum.ofInt 3).isFinite = true ∧
    ∃ t,
      (saveThenLoad ⟨JSNum.ofInt 80, JSNum.ofInt 18, JSNum.ofInt 3, true, jsStr "AUD"⟩
          defaultState (samplePage [])).thrown = none ∧
      (saveThenLoad ⟨JSNum.ofInt 80, JSNum.ofInt 18, JSNum.ofInt 3, true, jsStr "AUD"⟩
          defaultState (samplePage [])).result.1
        = (⟨JSNum.ofInt 80, t, JSNum.ofInt 3, true, jsStr "AUD"⟩ : State).toObject ∧
      JSNum.strictEq t (JSNum.ofInt 18) = true ∧
      ((JSNum.ofInt 18).isZero = false → t = JSNum.ofInt 18) :=
  ⟨by decide, by decide, by decide, by decide, by decide,
    save_load_roundtrip ⟨JSNum.ofInt 80, JSNum.ofInt 18, JSNum.ofInt 3, true, jsStr "AUD"⟩
      defaultState (samplePage []) (by decide) (by decide) (by decide) (by decide) (by decide)⟩

/-- C5 as stated fails: typing `Infinity` into the bill field of the
initial page gives the state with an infinite bill, no tip and one person; it
is valid, yet after `saveState` and `loadState` its bill is `null`. -/
theorem save_load_infinity_counterexample :
    (billChanged sampleFormat (jsStr "Infinity")
        ⟨defaultState, samplePage [], Stored.missing⟩).result.state
      = ⟨JSNum.inf false, JSNum.ofInt 0, JSNum.ofInt 1, false, jsStr "AUD"⟩ ∧
    JSNum.gt (JSNum.inf false) (JSNum.ofInt 0) = true ∧
    JSNum.ge (JSNum.ofInt 1) (JSNum.ofInt 1) = true ∧
    (saveThenLoad ⟨JSNum.inf false, JSNum.ofInt 0, JSNum.ofInt 1, false, jsStr "AUD"⟩
        defaultState (samplePage [])).thrown = none ∧
    (saveThenLoad ⟨JSNum.inf false, JSNum.ofInt 0, JSNum.ofInt 1, false, jsStr "AUD"⟩
        defaultState (samplePage [])).result.1.get (jsStr "bill") = JSVal.null :=
  ⟨by decide, by decide, by decide, by decide, rfl⟩

/-- C6, as the code has it: `loadState` completes when the stored item is
missing or empty, leaving the state and the page as they are, so at start-up
the state is the initial one, bill 0, tip 0, one person, light mode, currency
AUD. On an item that does not parse it fails with the SyntaxError of
`JSON.parse`, the state left as it was. On an item that parses it completes
exactly when the four values it puts into the fields can be turned into text,
and fails with a TypeError otherwise. -/
theorem loadState_outcomes (state : JSObject) (dom : Dom) :
    (loadState Stored.missing state dom).thrown = none ∧
    (loadState Stored.missing state dom).result = (state, dom) ∧
    (loadState Stored.empty state dom).thrown = none ∧
    (loadState Stored.empty state dom).result = (state, dom) ∧
    (loadState Stored.malformed state dom).thrown = some JSError.syntaxError ∧
    (loadState Stored.malformed state dom).result = (state, dom) ∧
    (∀ v, (loadState (Stored.json v) state dom).thrown
      = if fieldsConvertible (JSObject.assign (JSObject.assign [] state) v.ownProps) then none
        else some JSError.typeError) ∧
    defaultState = ⟨JSNum.ofInt 0, JSNum.ofInt 0, JSNum.ofInt 1, false, jsStr "AUD"⟩ :=
  ⟨rfl, rfl, rfl, rfl, rfl, rfl, fun v => loadState_json_thrown v state dom, rfl⟩

/-- C6 as stated fails: on a stored item that does not parse, `loadState`
called at start-up does not complete, it throws a SyntaxError; and on the
stored record whose `bill` is an object with a property `toString` it throws a
TypeError. -/
theorem loadState_malformed_counterexample :
    (loadState Stored.malformed defaultState.toObject (samplePage [])).thrown
      = some JSError.syntaxError ∧
    (loadState
      (Stored.json (JSVal.obj [(jsStr "bill",
        JSVal.obj [(jsStr "toString", JSVal.num (JSNum.ofInt 0))])]))
      defaultState.toObject (samplePage [])).thrown = some JSError.typeError :=
  ⟨by decide, by decide⟩

/-- C10, as the code has it: for every stored item that parses, the state
that `loadState` assigns is the previous state overwritten by the parsed
value: a property has the stored value whenever the record holds it, whatever
its type, and its previous value otherwise; the state has the properties it
had before and every property of the record, the unknown ones included. -/
theorem loadState_merge (v : JSVal) (s0 : State) (dom : Dom) :
    (loadState (Stored.json v) s0.toObject dom).result.1
      = JSObject.assign s0.toObject v.ownProps ∧
    (∀ key, (loadState (Stored.json v) s0.toObject dom).result.1.get key
      = (lastValue v.ownProps key).getD (s0.toObject.get key)) ∧
    (∀ key, (loadState (Stored.json v) s0.toObject dom).result.1.has key
      = (s0.toObject.has key || v.ownProps.any (fun p => p.1 == key))) := by
  rw [loadState_json_state, State.copy_toObject]
  refine ⟨rfl, ?_, ?_⟩
  · intro key
    rw [JSObject.get_assign]
  · intro key
    rw [JSObject.has_assign]

/-- C10 as stated fails: from a record with a text under `bill` and an
unknown property `extra`, `loadState` completes with a state that has the text
as its bill and has the property `extra`. -/
theorem loadState_illtyped_counterexample :
    (loadState
        (Stored.json (JSVal.obj [(jsStr "bill", JSVal.str (jsStr "abc")),
          (jsStr "extra", JSVal.num (JSNum.ofInt 1))]))
        defaultState.toObject (samplePage [])).thrown = none ∧
    (loadState
        (Stored.json (JSVal.obj [(jsStr "bill", JSVal.str (jsStr "abc")),
          (jsStr "extra", JSVal.num (JSNum.ofInt 1))]))
        defaultState.toObject (samplePage [])).result.1.get (jsStr "bill")
      = JSVal.str (jsStr "abc") ∧
    (loadState
        (Stored.json (JSVal.obj [(jsStr "bill", JSVal.str (jsStr "abc")),
          (jsStr "extra", JSVal.num (JSNum.ofInt 1))]))
        defaultState.toObject (samplePage [])).result.1.has (jsStr "extra") = true :=
  ⟨by decide, rfl, by decide⟩

/-- From the record the page saves once the people field has been
emptied, with a people count of 0, `loadState` keeps 0 in the state and puts 1
into the people field (`state.people || 1`, line 53). -/
theorem loadState_people_zero_field :
    (loadState (stringify ⟨JSNum.ofInt 50, JSNum.ofInt 10, JSNum.ofInt 0, false, jsStr "AUD"⟩)
        defaultState.toObject (samplePage [])).result.1.get (jsStr "people")
      = JSVal.num (JSNum.ofInt 0) ∧
    (loadState (stringify ⟨JSNum.ofInt 50, JSNum.ofInt 10, JSNum.ofInt 0, false, jsStr "AUD"⟩)
        defaultState.toObject (samplePage [])).result.2.numPeople
      = JSVal.num (JSNum.ofInt 1) :=
  ⟨rfl, rfl⟩
